import Mathlib

/-!
Verification of the LexAssist brief-analysis and document-drafting core.

This file gives a shallow embedding, in Lean, of the parts of the LexAssist
repository that the specification's checked claims talk about:

* `legal_backend.py` — the research aggregator (`LegalDataAggregator`), the
  analysis generator (`LegalAnalysisGenerator`) and the text normalizer
  (`LegalBriefAnalyzer._preprocess_text`);
* `legal_brief_analyzer.py` — the citation extractor (`_extract_citations`),
  the legal-term extractor (`_extract_legal_terms`) and the query generator
  (`_generate_search_queries`);
* `case_file_drafting_agent.py` — the section-based document generator
  (`CaseFileDraftingAgent`);
* `api/case_file_drafter.py` — the option-driven drafter (`CaseFileDrafter`).

Python strings are modelled as Lean `String`s (or `List Char` where character
level scanning is required), Python `int` as `Int`, Python dict-shaped records
as structures, and code that can raise as `Except String`-valued functions.
External capabilities that the core merely calls (the spaCy NER pipeline, the
NLTK sentence tokenizer, the wall clock) are passed in as explicit parameters.
-/

namespace LexAssist

/-! ## Python-semantics helpers -/

/-- Python whitespace class `\s` restricted to its ASCII members
(space, tab, newline, carriage return, vertical tab, form feed). -/
def isPyWs (c : Char) : Bool :=
  c = ' ' || c = '\t' || c = '\n' || c = '\r' || c = '\x0b' || c = '\x0c'

/-- Word character class `\w` (ASCII view): letters, digits and underscore. -/
def isWordChar (c : Char) : Bool :=
  c.isAlpha || c.isDigit || c = '_'

/-- Order-preserving de-duplication: the semantics of Python
`list(dict.fromkeys(xs))`.  Also used, with an explicit caveat recorded at the
use site, to determinize `list(set(xs))`. -/
def pyDedupAux {α} [DecidableEq α] (seen : List α) : List α → List α
  | [] => []
  | x :: xs => if x ∈ seen then pyDedupAux seen xs else x :: pyDedupAux (x :: seen) xs

/-- Order-preserving de-duplication of a list, see `pyDedupAux`. -/
def pyDedup {α} [DecidableEq α] (l : List α) : List α := pyDedupAux [] l

/-- Python truthiness-based `x or y` on lists: `y` if `x` is empty, else `x`. -/
def pyOr {α} (x y : List α) : List α := if x.isEmpty then y else x

/-- Python substring test `needle in haystack`. -/
def pyIn (needle haystack : String) : Bool :=
  decide (List.IsInfix needle.toList haystack.toList)

/-- Splitter scan behind `pySplitWs`: accumulate the current word
(reversed) and emit it at each whitespace boundary. -/
def splitWsAux (acc : List Char) : List Char → List (List Char)
  | [] => if acc.isEmpty then [] else [acc.reverse]
  | c :: cs =>
    if isPyWs c then
      if acc.isEmpty then splitWsAux [] cs else acc.reverse :: splitWsAux [] cs
    else splitWsAux (c :: acc) cs

/-- Python `str.split()` with no arguments: split on whitespace runs,
discarding empty pieces. -/
def pySplitWs (s : String) : List String :=
  (splitWsAux [] s.toList).map (fun w => ⟨w⟩)

/-- Python `str.lower()` (ASCII view, adequate for every string the claims
touch). -/
def pyLower (s : String) : String := ⟨s.toList.map Char.toLower⟩

/-- Python `str.upper()` (ASCII view). -/
def pyUpper (s : String) : String := ⟨s.toList.map Char.toUpper⟩

/-- The `f"{i}. {x}\n\n"` accumulation pattern of
`for i, x in enumerate(xs, start): out += f"{i}. {f x}\n\n"`. -/
def numberedWith {α} (f : α → String) : Nat → List α → String
  | _, [] => ""
  | start, x :: rest =>
    Nat.repr start ++ ". " ++ f x ++ "\n\n" ++ numberedWith f (start + 1) rest

/-- The `content.append(...)` pattern of
`for i, x in enumerate(xs, start): content.extend(f i x)` for line lists. -/
def numberedBlocks {α} (f : Nat → α → List String) : Nat → List α → List String
  | _, [] => []
  | start, x :: rest => f start x ++ numberedBlocks f (start + 1) rest

/-- Match a literal character list at the head of the text, returning the
remainder on success. -/
def stripLit : List Char → List Char → Option (List Char)
  | [], rest => some rest
  | _ :: _, [] => none
  | c :: cs, r :: rs => if r = c then stripLit cs rs else none

/-- Non-overlapping left-to-right occurrence count, the semantics of Python
`s.count(pat)` for a non-empty `pat`.  Fuelled by the text length. -/
def countOccAux (pat : List Char) : Nat → List Char → Nat
  | 0, _ => 0
  | _, [] => 0
  | fuel + 1, c :: cs =>
    match stripLit pat (c :: cs) with
    | some rest => 1 + countOccAux pat fuel rest
    | none => countOccAux pat fuel cs

/-- Python `s.count(pat)` for non-empty `pat`. -/
def pyCount (s pat : String) : Nat := countOccAux pat.toList s.toList.length s.toList

/-- Replace all non-overlapping occurrences, left to right: the semantics of
Python `s.replace(pat, rep)` for a non-empty `pat`.  Fuelled by the text
length. -/
def replaceAux (pat rep : List Char) : Nat → List Char → List Char
  | 0, l => l
  | _, [] => []
  | fuel + 1, c :: cs =>
    match stripLit pat (c :: cs) with
    | some rest => rep ++ replaceAux pat rep fuel rest
    | none => c :: replaceAux pat rep fuel cs

/-- Python `s.replace(pat, rep)` for non-empty `pat`. -/
def pyReplace (s pat rep : String) : String :=
  ⟨replaceAux pat.toList rep.toList s.toList.length s.toList⟩

/-! ## `legal_backend.py`: data model of research results -/

/-- A law-section research result (`legal_backend.py` result dicts with keys
`title`, `sectionNumber`, `content`, `relevance`). -/
structure LawSection where
  title : String
  sectionNumber : String
  content : String
  relevance : Int
deriving DecidableEq, Repr

/-- A case-history research result (`legal_backend.py` result dicts with keys
`citation`, `parties`, `holdings`, `relevance`, `date`). -/
structure CaseHistory where
  citation : String
  parties : String
  holdings : String
  relevance : Int
  date : String
deriving DecidableEq, Repr

/-- Deduplication key used by `LegalDataAggregator.search_law_sections`:
`(result["title"], result["sectionNumber"])`. -/
def lawKey (r : LawSection) : String × String := (r.title, r.sectionNumber)

/-- Deduplication key used by `LegalDataAggregator.search_case_history`:
`result["citation"]`. -/
def caseKey (r : CaseHistory) : String := r.citation

/-! ## `legal_backend.py`: `LegalDataAggregator` -/

/-- The `all_results` accumulation loop of the aggregator: each connector call
is wrapped in `try/except`, so a connector whose search raised (modelled as
`Except.error`) contributes nothing, while an `Except.ok` contributes its
result list via `all_results.extend(results)`. -/
def collectOks {α} : List (Except String (List α)) → List α
  | [] => []
  | Except.ok rs :: cs => rs ++ collectOks cs
  | Except.error _ :: cs => collectOks cs

/-- One step of the dict-based dedup loop
`if key not in deduplicated or result["relevance"] > deduplicated[key]["relevance"]:
deduplicated[key] = result`: replace the (first) record with the same key in
place when the new record's relevance is strictly greater, keep it otherwise,
and append the record at the end when its key is new (Python dicts keep the
insertion position of a key on value update). -/
def dedupUpd {α κ} [DecidableEq κ] (key : α → κ) (rel : α → Int) (r : α) : List α → List α
  | [] => [r]
  | x :: xs =>
    if key x = key r then (if rel r > rel x then r :: xs else x :: xs)
    else x :: dedupUpd key rel r xs

/-- The full dedup loop over `all_results`, yielding `deduplicated.values()`
in key-insertion order. -/
def dedupByKey {α κ} [DecidableEq κ] (key : α → κ) (rel : α → Int) (l : List α) : List α :=
  l.foldl (fun acc r => dedupUpd key rel r acc) []

/-- `sorted(..., key=lambda x: x["relevance"], reverse=True)`: stable sort,
descending by relevance.  `List.insertionSort` with the reflexive total
relation below is stable in the same way as Python's sort. -/
def sortByRelevanceDesc {α} (rel : α → Int) (l : List α) : List α :=
  List.insertionSort (fun a b => rel b ≤ rel a) l

/-- `LegalDataAggregator.search_law_sections`, over the outcomes of the
configured connectors' `search_law_sections` calls. -/
def LegalDataAggregator.search_law_sections
    (connectorResults : List (Except String (List LawSection))) : List LawSection :=
  sortByRelevanceDesc (fun r => r.relevance)
    (dedupByKey lawKey (fun r => r.relevance) (collectOks connectorResults))

/-- `LegalDataAggregator.search_case_history`, over the outcomes of the
configured connectors' `search_case_history` calls. -/
def LegalDataAggregator.search_case_history
    (connectorResults : List (Except String (List CaseHistory))) : List CaseHistory :=
  sortByRelevanceDesc (fun r => r.relevance)
    (dedupByKey caseKey (fun r => r.relevance) (collectOks connectorResults))

/-! ## `legal_backend.py`: `LegalAnalysisGenerator` -/

/-- The slice of a brief analysis dict read by the generators: keys
`domains`, `acts`, `summary` (a missing `domains` key is read back as
`["general"]` by `.get`, which is representable as that value here). -/
structure BriefAnalysis where
  domains : List String
  acts : List String
  summary : String
deriving Repr

/-- `generic_arguments` of `LegalAnalysisGenerator._generate_arguments`. -/
def genericArguments : List String :=
  ["The facts presented establish a prima facie case that meets all statutory requirements.",
   "The opposing party\x27s actions constitute a clear violation of established legal principles.",
   "Procedural irregularities in the opposing party\x27s approach undermine their position."]

/-- `generic_challenges` of `LegalAnalysisGenerator._generate_challenges`. -/
def genericChallenges : List String :=
  ["Establishing sufficient evidence to meet the burden of proof may be challenging.",
   "The opposing party may argue that the statute of limitations has expired.",
   "Jurisdictional issues could arise if the matter crosses state boundaries.",
   "Proving the requisite intent element may be difficult without direct evidence.",
   "Quantifying damages precisely could be challenging without expert testimony."]

/-- `generic_recommendations` of `LegalAnalysisGenerator._generate_recommendations`. -/
def genericRecommendations : List String :=
  ["Gather all documentary evidence to support factual assertions in the case.",
   "Consider engaging expert witnesses to strengthen technical aspects of the case.",
   "Prepare detailed affidavits from all relevant witnesses.",
   "Explore alternative dispute resolution options before proceeding to trial.",
   "Conduct thorough research on the presiding judge\x27s previous rulings in similar cases."]

/-- `if len(content) > 100: content = content[:100] + "..."` -/
def truncateContent (content : String) : String :=
  if content.length > 100 then content.take 100 ++ "..." else content

/-- `LegalAnalysisGenerator._generate_arguments`. -/
def LegalAnalysisGenerator.generate_arguments (_ba : BriefAnalysis)
    (law_sections : List LawSection) (case_histories : List CaseHistory) : List String :=
  let args :=
    (law_sections.take 3).map (fun s =>
      "Under " ++ s.title ++ " Section " ++ s.sectionNumber ++
      ", you can argue that " ++ truncateContent s.content) ++
    (case_histories.take 2).map (fun c =>
      "The precedent established in " ++ c.parties ++ " (" ++ c.citation ++
      ") supports the position that " ++ c.holdings)
  let args :=
    if args.length < 3 then args ++ genericArguments.take (3 - args.length) else args
  args.take 5

/-- `LegalAnalysisGenerator._generate_challenges`. -/
def LegalAnalysisGenerator.generate_challenges (ba : BriefAnalysis)
    (_law_sections : List LawSection) (_case_histories : List CaseHistory) : List String :=
  let challenges :=
    (if "criminal" ∈ ba.domains then
      ["Proving criminal intent beyond reasonable doubt will require substantial evidence."]
     else []) ++
    (if "civil" ∈ ba.domains then
      ["Establishing causation between the breach and claimed damages may be difficult."]
     else []) ++
    (if "constitutional" ∈ ba.domains then
      ["Constitutional challenges face a high standard of review from the courts."]
     else [])
  let challenges :=
    if challenges.length < 3 then challenges ++ genericChallenges.take (3 - challenges.length)
    else challenges
  challenges.take 4

/-- `LegalAnalysisGenerator._generate_recommendations`. -/
def LegalAnalysisGenerator.generate_recommendations (ba : BriefAnalysis)
    (_law_sections : List LawSection) (case_histories : List CaseHistory) : List String :=
  let recommendations :=
    (if "criminal" ∈ ba.domains then
      ["Scrutinize the investigation procedure for any procedural lapses that could be challenged."]
     else []) ++
    (if "civil" ∈ ba.domains then
      ["Quantify damages precisely with supporting documentation and expert opinions."]
     else []) ++
    (if "corporate" ∈ ba.domains then
      ["Review all corporate governance documents and board resolutions relevant to the matter."]
     else []) ++
    (match case_histories.head? with
     | some top_case =>
       ["Cite " ++ top_case.parties ++
        " prominently in submissions as it establishes favorable precedent."]
     | none => [])
  let recommendations :=
    if recommendations.length < 4 then
      recommendations ++ genericRecommendations.take (4 - recommendations.length)
    else recommendations
  recommendations.take 5

/-! ## `legal_brief_analyzer.py`: citation extraction -/

/-- Citation reporter tags produced by `LegalBriefAnalyzer._extract_citations`
(the `"type"` key of the citation dicts). -/
inductive CitationType
  | AIR
  | SCC
  | SCR
deriving DecidableEq, Repr

/-- A structured citation dict: `type`, `year`, `page`, and — for SCC
citations only — `volume`. -/
structure Citation where
  ctype : CitationType
  year : String
  volume : Option String
  page : String
deriving DecidableEq, Repr

/-- Longest digit run at the head of the text (the greedy `\d+`). -/
def takeDigits : List Char → List Char × List Char
  | [] => ([], [])
  | c :: cs =>
    if c.isDigit then
      let (d, r) := takeDigits cs
      (c :: d, r)
    else ([], c :: cs)

/-- Greedy `\s*`. -/
def dropWs (l : List Char) : List Char := l.dropWhile isPyWs

/-- Attempt the AIR pattern `(\d{4})\s*AIR\s*(\d+)` at the current position.
`\d{4}` consumes exactly the first four characters (all digits); `\s*` is
greedy and disjoint from the literal and digit classes that follow, so no
backtracking can occur. -/
def matchAIRAt (l : List Char) : Option (Citation × List Char) :=
  let d4 := l.take 4
  if d4.length = 4 ∧ d4.all Char.isDigit then
    match stripLit ['A', 'I', 'R'] (dropWs (l.drop 4)) with
    | none => none
    | some rest =>
      let (p, rest') := takeDigits (dropWs rest)
      if p.isEmpty then none
      else some ({ ctype := .AIR, year := ⟨d4⟩, volume := none, page := ⟨p⟩ }, rest')
  else none

/-- Attempt the SCC pattern `\((\d{4})\)\s*(\d+)\s*SCC\s*(\d+)` at the current
position. -/
def matchSCCAt (l : List Char) : Option (Citation × List Char) :=
  match l with
  | '(' :: l1 =>
    let d4 := l1.take 4
    if d4.length = 4 ∧ d4.all Char.isDigit then
      match l1.drop 4 with
      | ')' :: l2 =>
        let (v, l3) := takeDigits (dropWs l2)
        if v.isEmpty then none
        else
          match stripLit ['S', 'C', 'C'] (dropWs l3) with
          | none => none
          | some l4 =>
            let (p, l5) := takeDigits (dropWs l4)
            if p.isEmpty then none
            else some ({ ctype := .SCC, year := ⟨d4⟩, volume := some ⟨v⟩, page := ⟨p⟩ }, l5)
      | _ => none
    else none
  | _ => none

/-- Attempt the SCR pattern `(\d{4})\s*SCR\s*(\d+)` at the current position. -/
def matchSCRAt (l : List Char) : Option (Citation × List Char) :=
  let d4 := l.take 4
  if d4.length = 4 ∧ d4.all Char.isDigit then
    match stripLit ['S', 'C', 'R'] (dropWs (l.drop 4)) with
    | none => none
    | some rest =>
      let (p, rest') := takeDigits (dropWs rest)
      if p.isEmpty then none
      else some ({ ctype := .SCR, year := ⟨d4⟩, volume := none, page := ⟨p⟩ }, rest')
  else none

/-- `re.finditer` driver: scan left to right, emitting non-overlapping matches
and resuming after each match's end.  Fuelled by the text length (every match
consumes at least the four year digits). -/
def scanMatches (matchAt : List Char → Option (Citation × List Char)) :
    Nat → List Char → List Citation
  | 0, _ => []
  | _, [] => []
  | fuel + 1, c :: cs =>
    match matchAt (c :: cs) with
    | some (cit, rest) => cit :: scanMatches matchAt fuel rest
    | none => scanMatches matchAt fuel cs

/-- `LegalBriefAnalyzer._extract_citations`: run the AIR, SCC and SCR
`finditer` passes in that order and append their structured results. -/
def LegalBriefAnalyzer.extract_citations (text : String) : List Citation :=
  scanMatches matchAIRAt text.toList.length text.toList ++
  scanMatches matchSCCAt text.toList.length text.toList ++
  scanMatches matchSCRAt text.toList.length text.toList

/-! ## `legal_brief_analyzer.py`: legal terms and search queries -/

/-- The fixed `legal_terms` catalog of `_extract_legal_terms`. -/
def legalTermsCatalog : List String :=
  ["murder", "theft", "fraud", "negligence", "damages",
   "contract", "breach", "tort", "liability", "compensation",
   "injunction", "specific performance", "arbitration", "appeal",
   "evidence", "testimony", "witness", "jurisdiction", "bail",
   "conviction", "acquittal", "sentence", "punishment", "rights"]

/-- Case-insensitive literal match of `term` at the head of the text,
returning the remainder (the `re.IGNORECASE` flag lowers both sides). -/
def matchCI : List Char → List Char → Option (List Char)
  | [], rest => some rest
  | _ :: _, [] => none
  | t :: ts, c :: cs => if c.toLower = t.toLower then matchCI ts cs else none

/-- True when the next character (if any) is not a word character, i.e. a
`\b` boundary holds after a match that ends in a word character. -/
def boundaryAfter : List Char → Bool
  | [] => true
  | c :: _ => !isWordChar c

/-- Scan for `\bterm\b` case-insensitively.  `prevIsWord` records whether the
character before the current position is a word character; the catalog terms
begin and end with word characters, so `\b` is exactly a word/non-word
transition here. -/
def scanWordCI (term : List Char) : Bool → List Char → Bool
  | _, [] => false
  | prevIsWord, c :: cs =>
    (!prevIsWord &&
      (match matchCI term (c :: cs) with
       | some rest => boundaryAfter rest
       | none => false)) ||
    scanWordCI term (isWordChar c) cs

/-- `re.search(r'\b' + re.escape(term) + r'\b', text, re.IGNORECASE)` as a
Boolean test. -/
def containsWordCI (term : String) (text : List Char) : Bool :=
  scanWordCI term.toList false text

/-- `LegalBriefAnalyzer._extract_legal_terms`. -/
def LegalBriefAnalyzer.extract_legal_terms (text : List Char) : List String :=
  legalTermsCatalog.filter (fun term => containsWordCI term text)

/-- The entity map produced by `LegalBriefAnalyzer._extract_entities`: a dict
whose keys are inserted in the fixed order `PERSON`, `ORG`, `DATE`,
`LOCATION` (the iteration order seen by the query generator). -/
structure EntityMap where
  person : List String
  org : List String
  date : List String
  location : List String
deriving Repr

/-- An act/section reference dict from `_extract_acts_sections` (keys `act`
and `section`; the latter is a Lean keyword, hence the field name `sec`). -/
structure ActSection where
  act : String
  sec : String
deriving DecidableEq, Repr

/-- The citation-to-query strings of `_generate_search_queries` (an SCC
citation built by `_extract_citations` always carries a volume; `getD ""`
covers the unreachable missing-volume case of the dict lookup). -/
def citationQueryString (c : Citation) : String :=
  match c.ctype with
  | .AIR => c.year ++ " AIR " ++ c.page
  | .SCC => "(" ++ c.year ++ ") " ++ c.volume.getD "" ++ " SCC " ++ c.page
  | .SCR => c.year ++ " SCR " ++ c.page

/-- Number of words of a chunk text, Python `len(chunk.text.split())`. -/
def countWords (s : String) : Nat := (pySplitWs s).length

/-- `LegalBriefAnalyzer._generate_search_queries`.

`nounChunks` stands for `[chunk.text for chunk in nlp(text).noun_chunks]`,
produced by the external spaCy capability; everything else is translated from
the source: up to five multi-word key phrases are appended first, then one
query per extracted act/section pair, then one per citation, then
entity × first-legal-term combinations for up to three `PERSON` and three
`ORG` entities.  The final `list(set(queries))[:10]` of the source iterates
the set in a hash-dependent, per-process-randomized order in CPython; it is
determinized here as order-preserving de-duplication (`pyDedup`) followed by
the same `[:10]` cap.  Because the real order is unspecified, only
order-insensitive consequences are asserted of the program: the result length
is at most 10, its elements are pairwise distinct and drawn from the candidate
pool, and — by pigeonhole — whenever one candidate class alone holds more than
ten distinct strings, some member of that class is missing from the result in
every possible iteration order. -/
def LegalBriefAnalyzer.generate_search_queries (text : List Char)
    (nounChunks : List String) (entities : EntityMap)
    (acts_sections : List ActSection) (citations : List Citation) : List String :=
  let key_phrases :=
    nounChunks.filter (fun s => 2 ≤ countWords s ∧ countWords s ≤ 5)
  let queries := key_phrases.take 5
  let queries := queries ++ acts_sections.map (fun i => i.act ++ " section " ++ i.sec)
  let queries := queries ++ citations.map citationQueryString
  let legal_terms := LegalBriefAnalyzer.extract_legal_terms text
  let queries := queries ++
    (match legal_terms.head? with
     | some t0 => (entities.person.take 3 ++ entities.org.take 3).map (fun v => v ++ " " ++ t0)
     | none => [])
  (pyDedup queries).take 10

/-! ## `legal_backend.py`: `LegalBriefAnalyzer._preprocess_text`

The source of the text normalizer is:

```
text = re.sub(r'\s+', ' ', text).strip()
text = re.sub(r'["""]', '"', text)
text = re.sub(r'[''']', "'", text)
```

(all quotes are plain ASCII bytes in the file).  The first two lines are
well-formed: the second line's character class contains the ASCII double
quote three times, so it substitutes a double quote for a double quote.  The
third line however is a Python lexical error: `r'[''']'` lexes as the raw
string `r'['`, an empty string `''`, and then a stray `]` token, so the
module raises `SyntaxError` (in every Python version) and the function can
never run.  Its evident intent, recorded by the spec as apostrophe
canonicalization, is modelled below. -/

/-- `re.sub(r'["""]', '"', text)` as a character map: the class holds only
the ASCII double quote (three times over), so matched characters are replaced
by themselves. -/
def normQuoteChar (c : Char) : Char := if c = '\x22' then '\x22' else c

/-- Modelled from the spec: the apostrophe-canonicalization step on line 88
of `legal_backend.py` is a Python `SyntaxError` as written (see the section
comment above); the spec's "canonicalized quote/apostrophe glyphs" is
modelled as mapping the ASCII and curly apostrophes to the ASCII one. -/
def normAposChar (c : Char) : Char :=
  if c = '\x27' || c = '‘' || c = '’' then '\x27' else c

/-- The `re.sub(r'\s+', ' ', text)` whitespace collapse: every maximal
whitespace run becomes a single space.  `prevWs` records whether the previous
input character was whitespace (in which case further whitespace is absorbed
into the already-emitted space). -/
def collapseAux : Bool → List Char → List Char
  | _, [] => []
  | prevWs, c :: cs =>
    if isPyWs c then
      if prevWs then collapseAux true cs else ' ' :: collapseAux true cs
    else c :: collapseAux false cs

/-- `re.sub(r'\s+', ' ', text)`. -/
def collapseWs (l : List Char) : List Char := collapseAux false l

/-- Remove trailing whitespace. -/
def dropTrailingWs (l : List Char) : List Char :=
  (l.reverse.dropWhile isPyWs).reverse

/-- Python `str.strip()` (restricted to the ASCII whitespace set). -/
def pyStrip (l : List Char) : List Char := dropTrailingWs (l.dropWhile isPyWs)

/-- `LegalBriefAnalyzer._preprocess_text` of `legal_backend.py`: whitespace
collapse and strip, then the quote map, then the (intent-modelled, see above)
apostrophe map. -/
def preprocess_text (l : List Char) : List Char :=
  ((pyStrip (collapseWs l)).map normQuoteChar).map normAposChar

/-! ## `case_file_drafting_agent.py`: data model -/

/-- The party dict built by `CaseFileDraftingAgent._extract_potential_parties`.
All four keys are always present (possibly with empty lists). -/
structure PotentialParties where
  petitioners : List String
  respondents : List String
  plaintiffs : List String
  defendants : List String
deriving DecidableEq, Repr

/-- The entity dict built by `CaseFileDraftingAgent._extract_entities` (spaCy
NER plus regex post-passes; an external capability from the point of view of
the section builders, which receive it as data). -/
structure AgentEntities where
  persons : List String
  organizations : List String
  dates : List String
  locations : List String
  monetary_values : List String
  potential_parties : PotentialParties
deriving DecidableEq, Repr

/-- The analysis dict consumed by the agent (keys `summary`, `arguments`,
`challenges`, `recommendations`). -/
structure AnalysisOutput where
  summary : String
  arguments : List String
  challenges : List String
  recommendations : List String
deriving Repr

/-- The `additional_info` map: a caller-supplied partial map from section (or
auxiliary) names to strings; `none` models an absent key. -/
def Info : Type := String → Option String

/-- The empty `additional_info` map (`additional_info or {}` with
`additional_info=None`). -/
def emptyInfo : Info := fun _ => none

/-- Point update of an `Info` map. -/
def infoSet (info : Info) (k v : String) : Info :=
  fun q => if q = k then some v else info q

/-- Point removal from an `Info` map. -/
def infoDel (info : Info) (k : String) : Info :=
  fun q => if q = k then none else info q

/-- The `if info.get(k): return info[k]` override test: Python string
truthiness makes an empty-string override fall through to generation. -/
def infoGetTruthy (info : Info) (k : String) : Option String :=
  match info k with
  | some v => if v = "" then none else some v
  | none => none

/-- `if len(content) > n: content = content[:n] + "..."`. -/
def pyTruncate (n : Nat) (content : String) : String :=
  if content.length > n then content.take n ++ "..." else content

/-! ## `case_file_drafting_agent.py`: section builders -/

/-- `CaseFileDraftingAgent._generate_title`. -/
def CaseFileDraftingAgent.generate_title (document_type : String)
    (ba : BriefAnalysis) (entities : AgentEntities) (info : Info) : String :=
  match infoGetTruthy info "title" with
  | some v => v
  | none =>
    let court := (info "court").getD "APPROPRIATE COURT"
    let domains := ba.domains
    let case_type :=
      if "criminal" ∈ domains then "CRIMINAL CASE"
      else if "civil" ∈ domains then "CIVIL SUIT"
      else if "constitutional" ∈ domains then "WRIT PETITION"
      else if "corporate" ∈ domains then "COMPANY PETITION"
      else if "tax" ∈ domains then "TAX APPEAL"
      else "PETITION"
    let pp := entities.potential_parties
    let petitioners := pyOr pp.petitioners pp.plaintiffs
    let respondents := pyOr pp.respondents pp.defendants
    let petitioner := petitioners.headD "PETITIONER NAME"
    let respondent := respondents.headD "RESPONDENT NAME"
    if document_type = "petition" then
      "IN THE " ++ court ++ "\n\n" ++ case_type ++ "\n\nIN THE MATTER OF:\n" ++
      petitioner ++ " ... PETITIONER\n\nVERSUS\n\n" ++ respondent ++ " ... RESPONDENT"
    else if document_type = "reply" ∨ document_type = "written_statement" then
      "IN THE " ++ court ++ "\n\n" ++ case_type ++ "\n\nIN THE MATTER OF:\n" ++
      petitioner ++ " ... PETITIONER/PLAINTIFF\n\nVERSUS\n\n" ++ respondent ++
      " ... RESPONDENT/DEFENDANT"
    else if document_type = "rejoinder" then
      "IN THE " ++ court ++ "\n\n" ++ case_type ++ "\n\nIN THE MATTER OF:\n" ++
      petitioner ++ " ... PETITIONER/PLAINTIFF\n\nVERSUS\n\n" ++ respondent ++
      " ... RESPONDENT/DEFENDANT\n\nREJOINDER ON BEHALF OF THE PETITIONER/PLAINTIFF"
    else
      "IN THE MATTER OF:\n" ++ petitioner ++ " ... PETITIONER\n\nVERSUS\n\n" ++
      respondent ++ " ... RESPONDENT"

/-- `CaseFileDraftingAgent._generate_parties_section`. -/
def CaseFileDraftingAgent.generate_parties_section (document_type : String)
    (entities : AgentEntities) (info : Info) : String :=
  match infoGetTruthy info "parties" with
  | some v => v
  | none =>
    let pp := entities.potential_parties
    let petitioners := pyOr pp.petitioners pp.plaintiffs
    let respondents := pyOr pp.respondents pp.defendants
    let organizations := entities.organizations
    let part1 :=
      match petitioners.head? with
      | some petitioner =>
        let is_org := organizations.any (fun org => pyIn org petitioner)
        (if document_type = "petition" ∨ document_type = "rejoinder" then
          "1. The Petitioner is "
         else "1. The Plaintiff is ") ++
        (if is_org then
          petitioner ++
          ", a company/organization registered under the laws of India, having its registered office at [ADDRESS]."
         else petitioner ++ ", aged about [AGE] years, resident of [ADDRESS].") ++ "\n\n"
      | none => "1. The Petitioner/Plaintiff details: [TO BE FILLED]\n\n"
    let part2 :=
      match respondents.head? with
      | some respondent =>
        let is_org := organizations.any (fun org => pyIn org respondent)
        (if document_type = "petition" ∨ document_type = "rejoinder" then
          "2. The Respondent is "
         else "2. The Defendant is ") ++
        (if is_org then
          respondent ++
          ", a company/organization registered under the laws of India, having its registered office at [ADDRESS]."
         else respondent ++ ", aged about [AGE] years, resident of [ADDRESS].")
      | none => "2. The Respondent/Defendant details: [TO BE FILLED]"
    part1 ++ part2

/-- `CaseFileDraftingAgent._generate_jurisdiction_section`. -/
def CaseFileDraftingAgent.generate_jurisdiction_section (ba : BriefAnalysis)
    (entities : AgentEntities) (info : Info) : String :=
  match infoGetTruthy info "jurisdiction" with
  | some v => v
  | none =>
    let location := entities.locations.headD "[LOCATION]"
    let domains := ba.domains
    if "criminal" ∈ domains then
      "This Hon\x27ble Court has jurisdiction to try and entertain this petition as the alleged offence occurred within the territorial jurisdiction of this Court at " ++
      location ++ "."
    else if "civil" ∈ domains then
      "This Hon\x27ble Court has jurisdiction to try and entertain this suit as the subject matter of the dispute is situated within the territorial jurisdiction of this Court at " ++
      location ++ ", and the cause of action arose within the jurisdiction of this Court."
    else if "constitutional" ∈ domains then
      "This Hon\x27ble Court has jurisdiction to entertain this petition under Article 226 of the Constitution of India as the cause of action arose within the territorial jurisdiction of this Court."
    else
      "This Hon\x27ble Court has jurisdiction to try and entertain this matter as the cause of action arose within the territorial jurisdiction of this Court at " ++
      location ++ "."

/-- `CaseFileDraftingAgent._generate_facts_section`.  `sentTokenize` stands
for the external NLTK `sent_tokenize` capability. -/
def CaseFileDraftingAgent.generate_facts_section
    (sentTokenize : String → List String) (_document_type : String)
    (ba : BriefAnalysis) (entities : AgentEntities) (info : Info) : String :=
  match infoGetTruthy info "facts" with
  | some v => v
  | none =>
    let dates := entities.dates
    let monetary_values := entities.monetary_values
    let summary := ba.summary
    if summary = "" then "The facts of the case are as follows: [FACTS TO BE FILLED]"
    else
      let sentences := sentTokenize summary
      let facts_text := "The facts of the case are as follows:\n\n" ++
        numberedWith id 1 sentences
      let facts_text := facts_text ++
        (if ¬ dates.isEmpty then
          Nat.repr (sentences.length + 1) ++ ". The relevant dates in this matter are: " ++
          String.intercalate ", " (dates.take 3) ++ ".\n\n"
         else "")
      facts_text ++
        (if ¬ monetary_values.isEmpty ∧
            ("civil" ∈ ba.domains ∨ pyIn "contract" (pyLower summary)) then
          Nat.repr (sentences.length + (if ¬ dates.isEmpty then 1 else 0) + 1) ++
          ". The monetary value involved in this dispute is approximately " ++
          String.intercalate " and " (monetary_values.take 2) ++ ".\n\n"
         else "")

/-- `CaseFileDraftingAgent._generate_legal_provisions_section`. -/
def CaseFileDraftingAgent.generate_legal_provisions_section
    (law_sections : List LawSection) (info : Info) : String :=
  match infoGetTruthy info "legal_provisions" with
  | some v => v
  | none =>
    if law_sections.isEmpty then
      "The following legal provisions are applicable to this case: [TO BE FILLED]"
    else
      "The following legal provisions are applicable to this case:\n\n" ++
      numberedWith (fun s =>
        s.title ++ " - Section " ++ s.sectionNumber ++ ":\n   " ++ s.content) 1 law_sections

/-- `CaseFileDraftingAgent._generate_grounds_section`. -/
def CaseFileDraftingAgent.generate_grounds_section (analysis : AnalysisOutput)
    (law_sections : List LawSection) (case_histories : List CaseHistory)
    (info : Info) : String :=
  match infoGetTruthy info "grounds" with
  | some v => v
  | none =>
    let arguments := analysis.arguments
    "The petition is filed on the following grounds:\n\n" ++
    numberedWith id 1 arguments ++
    numberedWith (fun s =>
        "As per " ++ s.title ++ " Section " ++ s.sectionNumber ++
        ", which states that \x27" ++ pyTruncate 150 s.content ++
        "\x27, the petitioner has a valid claim.")
      (arguments.length + 1) (law_sections.take 2) ++
    numberedWith (fun c =>
        "The Hon\x27ble Court in the case of " ++ c.parties ++ " (" ++ c.citation ++
        ") has held that " ++ c.holdings ++
        " This precedent directly applies to the present case.")
      (arguments.length + (law_sections.take 2).length + 1) (case_histories.take 2)

/-- `CaseFileDraftingAgent._generate_prayer_section`. -/
def CaseFileDraftingAgent.generate_prayer_section (document_type : String)
    (analysis : AnalysisOutput) (ba : BriefAnalysis) (info : Info) : String :=
  match infoGetTruthy info "prayer" with
  | some v => v
  | none =>
    let domains := ba.domains
    let recommendations := analysis.recommendations
    let prayer_text :=
      "In light of the facts and circumstances of the case, it is most respectfully prayed that this Hon\x27ble Court may be pleased to:\n\n"
    let prayer_text := prayer_text ++
      (if "criminal" ∈ domains then
        (if document_type = "petition" then
          "1. Direct the respondent to register an FIR and conduct a fair investigation into the matter;\n\n" ++
          "2. Grant compensation to the petitioner for the losses suffered;\n\n"
         else if document_type = "reply" ∨ document_type = "written_statement" then
          "1. Dismiss the petition/complaint as it is devoid of merits;\n\n" ++
          "2. Exonerate the respondent/defendant from all charges;\n\n"
         else "")
       else if "civil" ∈ domains then
        (if document_type = "petition" then
          "1. Declare that the petitioner is entitled to the reliefs claimed;\n\n" ++
          "2. Direct the respondent to pay damages/compensation as deemed fit by this Hon\x27ble Court;\n\n"
         else if document_type = "reply" ∨ document_type = "written_statement" then
          "1. Dismiss the suit with costs as it is devoid of merits;\n\n" ++
          "2. Declare that the plaintiff is not entitled to any of the reliefs claimed;\n\n"
         else "")
       else if "constitutional" ∈ domains then
        (if document_type = "petition" then
          "1. Issue a writ of mandamus or any other appropriate writ directing the respondent to perform its statutory duties;\n\n" ++
          "2. Declare the actions of the respondent as illegal, arbitrary, and violative of the petitioner\x27s fundamental rights;\n\n"
         else if document_type = "reply" ∨ document_type = "written_statement" then
          "1. Dismiss the writ petition as it is not maintainable;\n\n" ++
          "2. Declare that the respondent has acted within the framework of law;\n\n"
         else "")
       else
        (if document_type = "petition" then
          "1. Grant the reliefs as prayed for in the petition;\n\n" ++
          "2. Award costs of the proceedings to the petitioner;\n\n"
         else if document_type = "reply" ∨ document_type = "written_statement" then
          "1. Dismiss the petition/suit with costs;\n\n" ++
          "2. Grant such other relief as deemed fit in favor of the respondent/defendant;\n\n"
         else ""))
    let prayer_text := prayer_text ++
      (if ¬ recommendations.isEmpty then
        numberedWith id 3
          ((recommendations.take 2).filter (fun rec =>
            pyIn "prayer" (pyLower rec) || pyIn "relief" (pyLower rec)))
       else "")
    prayer_text ++
      (Nat.repr (pyCount prayer_text ";\n\n" + 1) ++
       ". Pass any other order or direction as this Hon\x27ble Court may deem fit and proper in the interest of justice.")

/-- `CaseFileDraftingAgent._generate_verification_section`.

The source reads `potential_parties.get("petitioners", ["[PETITIONER NAME]"])
[0]` (and the analogue for respondents).  `_extract_potential_parties` always
builds the dict with all four keys, so the `.get` default is dead and the
`[0]` indexing raises `IndexError` whenever the relevant party list is empty;
that fallible indexing is modelled with `Except`. -/
def CaseFileDraftingAgent.generate_verification_section (today : String)
    (document_type : String) (entities : AgentEntities) (info : Info) :
    Except String String :=
  match infoGetTruthy info "verification" with
  | some v => Except.ok v
  | none =>
    let location := entities.locations.headD "[PLACE]"
    let pp := entities.potential_parties
    if document_type = "petition" ∨ document_type = "rejoinder" then
      match pp.petitioners.head? with
      | some verifier =>
        Except.ok ("Verified at " ++ location ++ " on this " ++ today ++
          " that the contents of the above petition are true and correct to the best of my knowledge and belief and nothing material has been concealed therefrom.\n\n" ++
          verifier ++ "\nPETITIONER")
      | none => Except.error "IndexError: list index out of range"
    else if document_type = "reply" ∨ document_type = "written_statement" then
      match pp.respondents.head? with
      | some verifier =>
        Except.ok ("Verified at " ++ location ++ " on this " ++ today ++
          " that the contents of the above reply are true and correct to the best of my knowledge and belief and nothing material has been concealed therefrom.\n\n" ++
          verifier ++ "\nRESPONDENT")
      | none => Except.error "IndexError: list index out of range"
    else
      Except.ok ("Verified at " ++ location ++ " on this " ++ today ++
        " that the contents of the above document are true and correct to the best of my knowledge and belief and nothing material has been concealed therefrom.\n\n[NAME]\n[DESIGNATION]")

/-- `CaseFileDraftingAgent._generate_preliminary_objections`. -/
def CaseFileDraftingAgent.generate_preliminary_objections
    (analysis : AnalysisOutput) (info : Info) : String :=
  match infoGetTruthy info "preliminary_objections" with
  | some v => v
  | none =>
    let challenges := analysis.challenges
    "The respondent/defendant raises the following preliminary objections:\n\n" ++
    (if ¬ challenges.isEmpty then
      numberedWith id 1 challenges
     else
      "1. The petition/plaint is not maintainable in law and on facts.\n\n" ++
      "2. The petition/plaint is barred by limitation.\n\n" ++
      "3. The petitioner/plaintiff has no locus standi to file the present petition/suit.\n\n" ++
      "4. The petition/plaint does not disclose any cause of action against the respondent/defendant.\n\n")

/-- `CaseFileDraftingAgent._generate_facts_rebuttal`. -/
def CaseFileDraftingAgent.generate_facts_rebuttal (ba : BriefAnalysis)
    (info : Info) : String :=
  match infoGetTruthy info "facts_rebuttal" with
  | some v => v
  | none =>
    let base :=
      "The respondent/defendant submits the following in response to the alleged facts:\n\n" ++
      "1. The facts stated in the petition/plaint are denied as incorrect and misleading, except those that are specifically admitted herein.\n\n" ++
      "2. The respondent/defendant denies all allegations of wrongdoing or liability as alleged in the petition/plaint.\n\n"
    let domains := ba.domains
    base ++
      (if "criminal" ∈ domains then
        "3. The allegations of criminal conduct are vehemently denied as false and baseless. The respondent/defendant has not committed any offense as alleged.\n\n" ++
        "4. The complaint is filed with malafide intentions to harass and pressurize the respondent/defendant.\n\n"
       else if "civil" ∈ domains then
        "3. The alleged breach of contract/agreement is denied. The respondent/defendant has fulfilled all obligations as per the terms of the agreement.\n\n" ++
        "4. The petitioner/plaintiff has failed to disclose material facts and has approached this Hon\x27ble Court with unclean hands.\n\n"
       else if "constitutional" ∈ domains then
        "3. The respondent has acted within the framework of law and constitutional provisions. No fundamental right of the petitioner has been violated.\n\n" ++
        "4. The petitioner has alternative remedies available which have not been exhausted before approaching this Hon\x27ble Court.\n\n"
       else "")

/-- `CaseFileDraftingAgent._generate_legal_arguments`. -/
def CaseFileDraftingAgent.generate_legal_arguments (analysis : AnalysisOutput)
    (law_sections : List LawSection) (case_histories : List CaseHistory)
    (info : Info) : String :=
  match infoGetTruthy info "legal_arguments" with
  | some v => v
  | none =>
    let counter_arguments := analysis.arguments.map (fun arg =>
      pyReplace (pyReplace (pyReplace (pyReplace arg
        "establishes" "fails to establish")
        "clearly" "allegedly")
        "proves" "attempts to prove")
        "demonstrates" "claims to demonstrate")
    "The following legal arguments are submitted for consideration:\n\n" ++
    numberedWith id 1 (counter_arguments.take 3) ++
    numberedWith (fun s =>
        "With respect to " ++ s.title ++ " Section " ++ s.sectionNumber ++
        ", the correct interpretation does not support the petitioner\x27s/plaintiff\x27s claim because [SPECIFIC LEGAL REASONING].")
      ((counter_arguments.take 3).length + 1) (law_sections.take 2) ++
    numberedWith (fun c =>
        "The case of " ++ c.parties ++ " (" ++ c.citation ++
        ") cited by the petitioner/plaintiff is distinguishable from the present case because the facts and circumstances are materially different.")
      ((counter_arguments.take 3).length + (law_sections.take 2).length + 1)
      (case_histories.take 2)

/-- `CaseFileDraftingAgent._generate_rebuttal_to_reply`. -/
def CaseFileDraftingAgent.generate_rebuttal_to_reply (analysis : AnalysisOutput)
    (info : Info) : String :=
  match infoGetTruthy info "rebuttal_to_reply" with
  | some v => v
  | none =>
    "The petitioner/plaintiff submits the following in response to the reply/written statement:\n\n" ++
    "1. The preliminary objections raised in the reply/written statement are misconceived and liable to be rejected.\n\n" ++
    "2. The respondent/defendant has failed to specifically deny the material allegations in the petition/plaint, which amounts to admission of those facts.\n\n" ++
    numberedWith (fun challenge =>
        "The respondent\x27s/defendant\x27s contention that " ++ challenge ++
        " is incorrect and misleading because [SPECIFIC REBUTTAL].")
      3 (analysis.challenges.take 2)

/-- `CaseFileDraftingAgent._generate_additional_facts`. -/
def CaseFileDraftingAgent.generate_additional_facts (ba : BriefAnalysis)
    (info : Info) : String :=
  match infoGetTruthy info "additional_facts" with
  | some v => v
  | none =>
    let base :=
      "The petitioner/plaintiff submits the following additional facts that have come to light:\n\n" ++
      "1. After filing the petition/plaint, the petitioner/plaintiff has discovered additional evidence that further strengthens the case.\n\n" ++
      "2. The respondent/defendant has continued with the alleged illegal activities even after notice of this proceeding.\n\n"
    let domains := ba.domains
    base ++
      (if "criminal" ∈ domains then
        "3. New witnesses have come forward who can testify to the respondent\x27s/defendant\x27s involvement in the alleged offense.\n\n"
       else if "civil" ∈ domains then
        "3. Additional documents have been discovered that conclusively prove the breach of contract/agreement by the respondent/defendant.\n\n"
       else if "constitutional" ∈ domains then
        "3. Recent actions by the respondent further demonstrate the pattern of constitutional violations alleged in the petition.\n\n"
       else "")

/-- `CaseFileDraftingAgent._generate_deponent_details`. -/
def CaseFileDraftingAgent.generate_deponent_details (entities : AgentEntities)
    (info : Info) : String :=
  match infoGetTruthy info "deponent_details" with
  | some v => v
  | none =>
    let pp := entities.potential_parties
    let persons := entities.persons
    let deponent :=
      if ¬ pp.petitioners.isEmpty then pp.petitioners.headD ""
      else if ¬ pp.plaintiffs.isEmpty then pp.plaintiffs.headD ""
      else if ¬ persons.isEmpty then persons.headD ""
      else "[DEPONENT NAME]"
    let location := entities.locations.headD "[ADDRESS]"
    "I, " ++ deponent ++
    ", aged about [AGE] years, [OCCUPATION], [NATIONALITY], resident of " ++
    location ++ ", do hereby solemnly affirm and declare as under:"

/-- `CaseFileDraftingAgent._generate_affidavit_statements`. -/
def CaseFileDraftingAgent.generate_affidavit_statements
    (sentTokenize : String → List String) (ba : BriefAnalysis) (info : Info) : String :=
  match infoGetTruthy info "statements" with
  | some v => v
  | none =>
    let sentences := sentTokenize ba.summary
    numberedWith id 1 sentences ++
    (Nat.repr (sentences.length + 1) ++
     ". I am well conversant with the facts and circumstances of the case and am competent to swear this affidavit.\n\n") ++
    (Nat.repr (sentences.length + 2) ++
     ". I have read and understood the contents of the accompanying petition/application and the same are true and correct to my knowledge.\n\n") ++
    (Nat.repr (sentences.length + 3) ++
     ". The annexures attached to the petition/application are true copies of their respective originals.\n\n")

/-- `CaseFileDraftingAgent._generate_affidavit_declaration`. -/
def CaseFileDraftingAgent.generate_affidavit_declaration (info : Info) : String :=
  match infoGetTruthy info "declaration" with
  | some v => v
  | none =>
    "I, the deponent above named, do hereby verify that the contents of this affidavit are true and correct to my knowledge, no part of it is false and nothing material has been concealed therefrom."

/-- `CaseFileDraftingAgent._generate_attestation`. -/
def CaseFileDraftingAgent.generate_attestation (today : String) (info : Info) : String :=
  match infoGetTruthy info "attestation" with
  | some v => v
  | none =>
    "Solemnly affirmed and signed before me on this " ++ today ++
    " at [PLACE].\n\nNOTARY PUBLIC/OATH COMMISSIONER"

/-- `CaseFileDraftingAgent._generate_sender_details`. -/
def CaseFileDraftingAgent.generate_sender_details (entities : AgentEntities)
    (info : Info) : String :=
  match infoGetTruthy info "sender_details" with
  | some v => v
  | none =>
    let pp := entities.potential_parties
    let persons := entities.persons
    let sender :=
      if ¬ pp.petitioners.isEmpty then pp.petitioners.headD ""
      else if ¬ pp.plaintiffs.isEmpty then pp.plaintiffs.headD ""
      else if ¬ persons.isEmpty then persons.headD ""
      else "[SENDER NAME]"
    "FROM:\n" ++ sender ++
    "\n[ADDRESS]\n[CONTACT DETAILS]\n\nTHROUGH:\n[ADVOCATE NAME]\n[ADVOCATE ADDRESS]\n[ADVOCATE CONTACT DETAILS]"

/-- `CaseFileDraftingAgent._generate_recipient_details`. -/
def CaseFileDraftingAgent.generate_recipient_details (entities : AgentEntities)
    (info : Info) : String :=
  match infoGetTruthy info "recipient_details" with
  | some v => v
  | none =>
    let pp := entities.potential_parties
    let recipient :=
      if ¬ pp.respondents.isEmpty then pp.respondents.headD ""
      else if ¬ pp.defendants.isEmpty then pp.defendants.headD ""
      else "[RECIPIENT NAME]"
    "TO:\n" ++ recipient ++ "\n[ADDRESS]\n[CONTACT DETAILS]"

/-- `CaseFileDraftingAgent._generate_notice_subject`. -/
def CaseFileDraftingAgent.generate_notice_subject (ba : BriefAnalysis)
    (info : Info) : String :=
  match infoGetTruthy info "subject" with
  | some v => v
  | none =>
    let domains := ba.domains
    let acts := ba.acts
    let subject_text := "SUBJECT: " ++
      (if "criminal" ∈ domains then "LEGAL NOTICE FOR FILING CRIMINAL COMPLAINT"
       else if "civil" ∈ domains then
        (if pyIn "contract" (pyLower (String.intercalate " " domains)) then
          "LEGAL NOTICE FOR BREACH OF CONTRACT AND RECOVERY OF DAMAGES"
         else "LEGAL NOTICE FOR CIVIL DISPUTE")
       else if "corporate" ∈ domains then "LEGAL NOTICE FOR CORPORATE DISPUTE"
       else "LEGAL NOTICE")
    subject_text ++
      (match acts.head? with
       | some act0 => " UNDER " ++ act0
       | none => "")

/-- `CaseFileDraftingAgent._generate_notice_demand`. -/
def CaseFileDraftingAgent.generate_notice_demand (analysis : AnalysisOutput)
    (info : Info) : String :=
  match infoGetTruthy info "demand" with
  | some v => v
  | none =>
    let recommendations := analysis.recommendations
    "In view of the above facts and circumstances, you are hereby called upon to:\n\n" ++
    (if ¬ recommendations.isEmpty then
      numberedWith id 1 (recommendations.take 3)
     else
      "1. [SPECIFIC DEMAND 1]\n\n" ++
      "2. [SPECIFIC DEMAND 2]\n\n" ++
      "3. Pay the legal costs of this notice.\n\n")

/-- `CaseFileDraftingAgent._generate_notice_timeline`. -/
def CaseFileDraftingAgent.generate_notice_timeline (info : Info) : String :=
  match infoGetTruthy info "timeline" with
  | some v => v
  | none =>
    "You are hereby given [NUMBER] days from the receipt of this notice to comply with the above demands, failing which my client will be constrained to initiate appropriate legal proceedings against you, both civil and criminal, in the appropriate forum, at your risk and cost."

/-- `CaseFileDraftingAgent._generate_notice_consequences`. -/
def CaseFileDraftingAgent.generate_notice_consequences
    (law_sections : List LawSection) (info : Info) : String :=
  match infoGetTruthy info "consequences" with
  | some v => v
  | none =>
    "Please note that if you fail to comply with the above demands within the stipulated time, you will be liable for the following consequences:\n\n" ++
    (if ¬ law_sections.isEmpty then
      numberedWith (fun s =>
        "Legal action under " ++ s.title ++ " Section " ++ s.sectionNumber ++ ".")
        1 (law_sections.take 2)
     else "") ++
    (Nat.repr ((law_sections.take 2).length + 1) ++
     ". Payment of damages, compensation, and legal costs.\n\n") ++
    (Nat.repr ((law_sections.take 2).length + 2) ++
     ". Any other legal remedy available under the law.\n\n")

/-! ## `case_file_drafting_agent.py`: section schemas and assembly -/

/-- `CaseFileDraftingAgent.document_structures` (`.get(document_type, [])`). -/
def CaseFileDraftingAgent.document_structures (document_type : String) : List String :=
  if document_type = "petition" then
    ["title", "jurisdiction", "parties", "facts", "grounds",
     "legal_provisions", "prayer", "verification"]
  else if document_type = "reply" then
    ["title", "parties", "preliminary_objections", "facts_rebuttal",
     "legal_arguments", "prayer", "verification"]
  else if document_type = "rejoinder" then
    ["title", "parties", "rebuttal_to_reply", "additional_facts",
     "legal_arguments", "prayer", "verification"]
  else if document_type = "affidavit" then
    ["title", "deponent_details", "verification", "statements",
     "declaration", "attestation"]
  else if document_type = "legal_notice" then
    ["sender_details", "recipient_details", "subject", "facts",
     "legal_provisions", "demand", "timeline", "consequences"]
  else if document_type = "written_statement" then
    ["title", "parties", "preliminary_objections", "facts",
     "defense_arguments", "legal_provisions", "prayer", "verification"]
  else []

/-- `if k in sections: sections[k] = v`: update the value of an existing key
in place (keys keep their insertion position), no-op when the key is absent
(which also matches the source's `if k in sections:` guards). -/
def updateSection (sections : List (String × String)) (k v : String) :
    List (String × String) :=
  sections.map (fun p => if p.1 = k then (p.1, v) else p)

/-- `CaseFileDraftingAgent._generate_document_sections`: initialize every
schema key to the empty string, then run the common and the
document-type-specific builder assignments.  The verification builder is the
only fallible one (see `generate_verification_section`) and is only invoked —
as in the source — when the schema has a `verification` key. -/
def CaseFileDraftingAgent.generate_document_sections
    (sentTokenize : String → List String) (today : String)
    (document_type : String) (ba : BriefAnalysis) (law_sections : List LawSection)
    (case_histories : List CaseHistory) (analysis : AnalysisOutput)
    (entities : AgentEntities) (info : Info) :
    Except String (List (String × String)) := do
  let sections := (CaseFileDraftingAgent.document_structures document_type).map
    (fun s => (s, ""))
  let sections := updateSection sections "title"
    (CaseFileDraftingAgent.generate_title document_type ba entities info)
  let sections := updateSection sections "parties"
    (CaseFileDraftingAgent.generate_parties_section document_type entities info)
  let sections := updateSection sections "facts"
    (CaseFileDraftingAgent.generate_facts_section sentTokenize document_type ba entities info)
  let sections := updateSection sections "legal_provisions"
    (CaseFileDraftingAgent.generate_legal_provisions_section law_sections info)
  let sections := updateSection sections "prayer"
    (CaseFileDraftingAgent.generate_prayer_section document_type analysis ba info)
  let sections ←
    if sections.any (fun p => p.1 = "verification") then do
      let v ← CaseFileDraftingAgent.generate_verification_section today document_type entities info
      pure (updateSection sections "verification" v)
    else pure sections
  if document_type = "petition" then
    let sections := updateSection sections "jurisdiction"
      (CaseFileDraftingAgent.generate_jurisdiction_section ba entities info)
    let sections := updateSection sections "grounds"
      (CaseFileDraftingAgent.generate_grounds_section analysis law_sections case_histories info)
    pure sections
  else if document_type = "reply" ∨ document_type = "written_statement" then
    let sections := updateSection sections "preliminary_objections"
      (CaseFileDraftingAgent.generate_preliminary_objections analysis info)
    let sections := updateSection sections "facts_rebuttal"
      (CaseFileDraftingAgent.generate_facts_rebuttal ba info)
    let sections := updateSection sections "legal_arguments"
      (CaseFileDraftingAgent.generate_legal_arguments analysis law_sections case_histories info)
    pure sections
  else if document_type = "rejoinder" then
    let sections := updateSection sections "rebuttal_to_reply"
      (CaseFileDraftingAgent.generate_rebuttal_to_reply analysis info)
    let sections := updateSection sections "additional_facts"
      (CaseFileDraftingAgent.generate_additional_facts ba info)
    let sections := updateSection sections "legal_arguments"
      (CaseFileDraftingAgent.generate_legal_arguments analysis law_sections case_histories info)
    pure sections
  else if document_type = "affidavit" then
    let sections := updateSection sections "deponent_details"
      (CaseFileDraftingAgent.generate_deponent_details entities info)
    let sections := updateSection sections "statements"
      (CaseFileDraftingAgent.generate_affidavit_statements sentTokenize ba info)
    let sections := updateSection sections "declaration"
      (CaseFileDraftingAgent.generate_affidavit_declaration info)
    let sections := updateSection sections "attestation"
      (CaseFileDraftingAgent.generate_attestation today info)
    pure sections
  else if document_type = "legal_notice" then
    let sections := updateSection sections "sender_details"
      (CaseFileDraftingAgent.generate_sender_details entities info)
    let sections := updateSection sections "recipient_details"
      (CaseFileDraftingAgent.generate_recipient_details entities info)
    let sections := updateSection sections "subject"
      (CaseFileDraftingAgent.generate_notice_subject ba info)
    let sections := updateSection sections "demand"
      (CaseFileDraftingAgent.generate_notice_demand analysis info)
    let sections := updateSection sections "timeline"
      (CaseFileDraftingAgent.generate_notice_timeline info)
    let sections := updateSection sections "consequences"
      (CaseFileDraftingAgent.generate_notice_consequences law_sections info)
    pure sections
  else pure sections

/-! ## `case_file_drafting_agent.py`: templates and template filling

The repository has no `templates/` directory, so `_load_template` always
takes its `FileNotFoundError` fallback and returns the built-in default
template strings, copied below byte for byte. -/

/-- The built-in default petition template. -/
def petitionTemplate : String :=
  "\n                IN THE [COURT NAME]\n                \n                [JURISDICTION]\n                \n                [CASE NUMBER]\n                \n                IN THE MATTER OF:\n                \n                [PETITIONER NAME]                                ... PETITIONER\n                \n                VERSUS\n                \n                [RESPONDENT NAME]                               ... RESPONDENT\n                \n                PETITION UNDER [RELEVANT LAW/SECTION]\n                \n                MOST RESPECTFULLY SHOWETH:\n                \n                1. PARTIES:\n                   [PARTIES_PLACEHOLDER]\n                \n                2. JURISDICTION:\n                   [JURISDICTION_PLACEHOLDER]\n                \n                3. FACTS OF THE CASE:\n                   [FACTS_PLACEHOLDER]\n                \n                4. GROUNDS:\n                   [GROUNDS_PLACEHOLDER]\n                \n                5. LEGAL PROVISIONS APPLICABLE:\n                   [LEGAL_PROVISIONS_PLACEHOLDER]\n                \n                6. PRAYER:\n                   [PRAYER_PLACEHOLDER]\n                \n                VERIFICATION:\n                \n                Verified at [PLACE] on this [DATE] that the contents of the above petition are true and correct to the best of my knowledge and belief and nothing material has been concealed therefrom.\n                \n                [PETITIONER/ADVOCATE NAME]\n                "

/-- The built-in default reply template. -/
def replyTemplate : String :=
  "\n                IN THE [COURT NAME]\n                \n                [JURISDICTION]\n                \n                [CASE NUMBER]\n                \n                IN THE MATTER OF:\n                \n                [PLAINTIFF/PETITIONER NAME]                     ... PLAINTIFF/PETITIONER\n                \n                VERSUS\n                \n                [DEFENDANT/RESPONDENT NAME]                     ... DEFENDANT/RESPONDENT\n                \n                REPLY ON BEHALF OF THE [DEFENDANT/RESPONDENT]\n                \n                MOST RESPECTFULLY SHOWETH:\n                \n                1. PARTIES:\n                   [PARTIES_PLACEHOLDER]\n                \n                2. PRELIMINARY OBJECTIONS:\n                   [PRELIMINARY_OBJECTIONS_PLACEHOLDER]\n                \n                3. REPLY TO FACTS:\n                   [FACTS_REBUTTAL_PLACEHOLDER]\n                \n                4. LEGAL ARGUMENTS:\n                   [LEGAL_ARGUMENTS_PLACEHOLDER]\n                \n                5. PRAYER:\n                   [PRAYER_PLACEHOLDER]\n                \n                VERIFICATION:\n                \n                Verified at [PLACE] on this [DATE] that the contents of the above reply are true and correct to the best of my knowledge and belief and nothing material has been concealed therefrom.\n                \n                [DEFENDANT/RESPONDENT/ADVOCATE NAME]\n                "

/-- The built-in default affidavit template. -/
def affidavitTemplate : String :=
  "\n                BEFORE THE [COURT/AUTHORITY NAME]\n                \n                [JURISDICTION]\n                \n                [CASE NUMBER]\n                \n                AFFIDAVIT\n                \n                I, [DEPONENT NAME], [AGE], [OCCUPATION], [NATIONALITY], resident of [ADDRESS], do hereby solemnly affirm and declare as under:\n                \n                1. [STATEMENT_1_PLACEHOLDER]\n                \n                2. [STATEMENT_2_PLACEHOLDER]\n                \n                3. [STATEMENT_3_PLACEHOLDER]\n                \n                VERIFICATION:\n                \n                I, the deponent above named, do hereby verify that the contents of this affidavit are true and correct to my knowledge, no part of it is false and nothing material has been concealed therefrom.\n                \n                Verified at [PLACE] on this [DATE].\n                \n                DEPONENT\n                \n                ATTESTATION:\n                \n                Solemnly affirmed and signed before me on this [DATE] at [PLACE].\n                \n                NOTARY PUBLIC/OATH COMMISSIONER\n                "

/-- `CaseFileDraftingAgent._load_template` (the `FileNotFoundError` fallback
branch; see the section comment). -/
def CaseFileDraftingAgent.load_template (template_name : String) : String :=
  if template_name = "petition" then petitionTemplate
  else if template_name = "reply" then replyTemplate
  else if template_name = "affidavit" then affidavitTemplate
  else
    "\n                [TITLE OF THE " ++ pyUpper template_name ++
    "]\n                \n                [CONTENT_PLACEHOLDER]\n                \n                [DATE]\n                \n                [SIGNATURE]\n                "

/-- The keys of `self.templates`, built in the constructor. -/
def CaseFileDraftingAgent.templateNames : List String :=
  ["petition", "reply", "rejoinder", "affidavit", "legal_notice", "written_statement"]

/-- The word-character suffix every placeholder ends with. -/
def placeholderSuffix : List Char := "_PLACEHOLDER".toList

/-- `re.sub(r'\[\w+_PLACEHOLDER\]', '', template)`: delete every occurrence
of `[`, one or more word characters ending in `_PLACEHOLDER`, `]`.  At each
`[`, the maximal word-character run after it is inspected; a match needs that
run to end in `_PLACEHOLDER`, have at least one extra leading word character,
and be followed by `]`.  Fuelled by the text length. -/
def stripPlaceholdersAux : Nat → List Char → List Char
  | 0, l => l
  | _, [] => []
  | fuel + 1, c :: cs =>
    if c = '[' then
      let run := cs.takeWhile isWordChar
      let rest := cs.drop run.length
      match rest with
      | ']' :: rest' =>
        if 13 ≤ run.length ∧ run.drop (run.length - 12) = placeholderSuffix then
          stripPlaceholdersAux fuel rest'
        else '[' :: stripPlaceholdersAux fuel cs
      | _ => '[' :: stripPlaceholdersAux fuel cs
    else c :: stripPlaceholdersAux fuel cs

/-- `re.sub(target-run of at least minRun, rep, text)`: the whitespace
cleanup substitutions `\n{3,} → "\n\n"` and ` {2,} → " "`.  Fuelled by the
text length. -/
def collapseRunsAux (target : Char) (minRun : Nat) (rep : List Char) :
    Nat → List Char → List Char
  | 0, l => l
  | _, [] => []
  | fuel + 1, c :: cs =>
    if c = target then
      let run := 1 + (cs.takeWhile (fun x => x = target)).length
      let rest := cs.drop (run - 1)
      (if minRun ≤ run then rep else List.replicate run target) ++
        collapseRunsAux target minRun rep fuel rest
    else c :: collapseRunsAux target minRun rep fuel cs

/-- `CaseFileDraftingAgent._fill_template`. -/
def CaseFileDraftingAgent.fill_template (today : String) (document_type : String)
    (sections : List (String × String)) : String :=
  let template :=
    if document_type ∈ CaseFileDraftingAgent.templateNames then
      CaseFileDraftingAgent.load_template document_type
    else ""
  let template := sections.foldl
    (fun t p => pyReplace t ("[" ++ pyUpper p.1 ++ "_PLACEHOLDER]") p.2) template
  let template : String := ⟨stripPlaceholdersAux template.toList.length template.toList⟩
  let template := pyReplace template "[DATE]" today
  let template : String :=
    ⟨collapseRunsAux '\n' 3 ['\n', '\n'] template.toList.length template.toList⟩
  let template : String :=
    ⟨collapseRunsAux ' ' 2 [' '] template.toList.length template.toList⟩
  ⟨pyStrip template.toList⟩

/-- Metadata of an agent-drafted document. -/
structure AgentMetadata where
  document_type : String
  generated_at : String
  based_on_brief : String
  law_sections_used : List String
  case_histories_used : List String
deriving Repr

/-- The return dict of `CaseFileDraftingAgent.draft_case_file`. -/
structure AgentDraft where
  content : String
  metadata : AgentMetadata
  sections : List (String × String)
deriving Repr

/-- `CaseFileDraftingAgent.draft_case_file`.

`sentTokenize` stands for the external NLTK `sent_tokenize`; `now_iso` and
`today` for `datetime.now().isoformat()` and
`datetime.now().strftime("%d/%m/%Y")`; `entities` for
`self._extract_entities(brief_content)` (spaCy NER plus regex post-passes,
an external NLP capability).  The validation check is the source's
`if document_type not in self.templates: raise ValueError(...)`. -/
def CaseFileDraftingAgent.draft_case_file (sentTokenize : String → List String)
    (now_iso today : String) (document_type : String) (ba : BriefAnalysis)
    (law_sections : List LawSection) (case_histories : List CaseHistory)
    (analysis : AnalysisOutput) (brief_content : String)
    (entities : AgentEntities) (additional_info : Info) : Except String AgentDraft :=
  if document_type ∉ CaseFileDraftingAgent.templateNames then
    Except.error ("Unsupported document type: " ++ document_type)
  else do
    let document_sections ← CaseFileDraftingAgent.generate_document_sections
      sentTokenize today document_type ba law_sections case_histories analysis
      entities additional_info
    let document_content :=
      CaseFileDraftingAgent.fill_template today document_type document_sections
    Except.ok
      { content := document_content
        metadata :=
          { document_type := document_type
            generated_at := now_iso
            based_on_brief :=
              if brief_content.length > 100 then brief_content.take 100 ++ "..."
              else brief_content
            law_sections_used := (law_sections.take 3).map
              (fun s => s.title ++ " Section " ++ s.sectionNumber)
            case_histories_used := (case_histories.take 3).map
              (fun c => c.parties ++ " (" ++ c.citation ++ ")") }
        sections := document_sections }

/-! ## `api/case_file_drafter.py`: data model -/

/-- The parties dict returned by `CaseFileDrafter._extract_parties`. -/
structure ApiParties where
  petitioner : String
  respondent : String
deriving DecidableEq, Repr

/-- A legal provision extracted by `_extract_legal_provisions` (dict keys
`act`, `section` — a Lean keyword, hence `sec` — and `content`). -/
structure LegalProvision where
  act : String
  sec : String
  content : String
deriving DecidableEq, Repr

/-- A case precedent extracted by `_extract_case_precedents`. -/
structure CasePrecedent where
  citation : String
  parties : String
  holdings : String
deriving DecidableEq, Repr

/-- A `lawSections` entry of the caller-supplied `analysis_results` dict;
`none` models a missing key (read back through `.get` defaults). -/
structure ApiLawSectionDict where
  title : Option String
  sectionNumber : Option String
  content : Option String
deriving Repr

/-- A `caseHistories` entry of the caller-supplied `analysis_results` dict. -/
structure ApiCaseDict where
  citation : Option String
  parties : Option String
  holdings : Option String
deriving Repr

/-- The slice of the nested `analysis` dict read by `_extract_arguments`. -/
structure ApiAnalysisInner where
  arguments : List String
deriving Repr

/-- The caller-supplied `analysis_results` dict. -/
structure ApiAnalysisResults where
  lawSections : List ApiLawSectionDict
  caseHistories : List ApiCaseDict
  analysis : Option ApiAnalysisInner
deriving Repr

/-- The `options` dict of `CaseFileDrafter.draft_case_file`; `none` models a
missing key, read back through the `.get` defaults of the source. -/
structure DraftOptions where
  document_type : Option String
  court : Option String
  include_arguments : Option Bool
  include_prayer : Option Bool
deriving Repr

/-- The return dict of `CaseFileDrafter.draft_case_file`. -/
structure ApiDraft where
  title : String
  content : String
  document_type : String
  court : String
  date : String
  parties : ApiParties
deriving DecidableEq, Repr

/-- `CaseFileDrafter._extract_legal_provisions`. -/
def CaseFileDrafter.extract_legal_provisions (ar : ApiAnalysisResults) :
    List LegalProvision :=
  ar.lawSections.map (fun s =>
    { act := s.title.getD "Unknown Act"
      sec := s.sectionNumber.getD "N/A"
      content := s.content.getD "" })

/-- `CaseFileDrafter._extract_case_precedents`. -/
def CaseFileDrafter.extract_case_precedents (ar : ApiAnalysisResults) :
    List CasePrecedent :=
  ar.caseHistories.map (fun c =>
    { citation := c.citation.getD "Unknown Citation"
      parties := c.parties.getD "Unknown Parties"
      holdings := c.holdings.getD "" })

/-- `CaseFileDrafter._extract_arguments`. -/
def CaseFileDrafter.extract_arguments (ar : ApiAnalysisResults) : List String :=
  match ar.analysis with
  | some a => a.arguments
  | none => []

/-! ## `api/case_file_drafter.py`: content generators -/

/-- `CaseFileDrafter._generate_petition`. -/
def CaseFileDrafter.generate_petition (parties : ApiParties) (facts : List String)
    (legal_provisions : List LegalProvision) (case_precedents : List CasePrecedent)
    (arguments : List String) (court : String)
    (include_arguments include_prayer : Bool) (today_dmy : String) : String :=
  let content : List String :=
    ["IN THE " ++ pyUpper court, "", "PETITION NO. _____ OF _____", "",
     "IN THE MATTER OF:", "", parties.petitioner, "... PETITIONER", "",
     "VERSUS", "", parties.respondent, "... RESPONDENT", "",
     "PETITION UNDER _____", "", "MOST RESPECTFULLY SHOWETH:", "",
     "1. FACTS OF THE CASE:", ""] ++
    numberedBlocks (fun i f => ["   " ++ Nat.repr i ++ ". " ++ f]) 1 facts ++
    [""] ++
    ["2. GROUNDS:", ""] ++
    (if ¬ legal_provisions.isEmpty then
      ["   A. APPLICABLE LEGAL PROVISIONS:", ""] ++
      numberedBlocks (fun i p =>
        ["      " ++ Nat.repr i ++ ". " ++ p.act ++ ", Section " ++ p.sec ++ ":",
         "         " ++ p.content, ""]) 1 legal_provisions
     else []) ++
    (if ¬ case_precedents.isEmpty then
      ["   B. RELEVANT CASE LAW:", ""] ++
      numberedBlocks (fun i c =>
        ["      " ++ Nat.repr i ++ ". " ++ c.parties ++ " (" ++ c.citation ++ "):",
         "         " ++ c.holdings, ""]) 1 case_precedents
     else []) ++
    (if include_arguments ∧ ¬ arguments.isEmpty then
      ["   C. ARGUMENTS:", ""] ++
      numberedBlocks (fun i a => ["      " ++ Nat.repr i ++ ". " ++ a]) 1 arguments ++
      [""]
     else []) ++
    (if include_prayer then
      ["3. PRAYER:", "",
       "   In view of the facts and circumstances of the case and the grounds mentioned above,",
       "   it is most respectfully prayed that this Hon\x27ble Court may be pleased to:", "",
       "   a) [SPECIFIC RELIEF SOUGHT]", "",
       "   b) Pass any other order(s) as this Hon\x27ble Court may deem fit and proper in the",
       "      interest of justice.", ""]
     else []) ++
    ["FILED BY:", "", "", "ADVOCATE FOR THE PETITIONER", "",
     "PLACE: _____", "DATE: " ++ today_dmy]
  String.intercalate "\n" content

/-- `CaseFileDrafter._generate_reply`. -/
def CaseFileDrafter.generate_reply (parties : ApiParties) (facts : List String)
    (legal_provisions : List LegalProvision) (case_precedents : List CasePrecedent)
    (arguments : List String) (court : String)
    (include_arguments : Bool) (today_dmy : String) : String :=
  let content : List String :=
    ["IN THE " ++ pyUpper court, "", "CASE NO. _____ OF _____", "",
     "IN THE MATTER OF:", "", parties.petitioner, "... PETITIONER/PLAINTIFF", "",
     "VERSUS", "", parties.respondent, "... RESPONDENT/DEFENDANT", "",
     "REPLY ON BEHALF OF THE RESPONDENT/DEFENDANT", "",
     "1. PRELIMINARY OBJECTIONS:", "",
     "   The Respondent/Defendant submits the following preliminary objections:", "",
     "   a) The petition/plaint is not maintainable in law and on facts.",
     "   b) The petition/plaint is barred by limitation.",
     "   c) The petition/plaint does not disclose any cause of action.", "",
     "2. REPLY TO FACTS:", ""] ++
    numberedBlocks (fun i f =>
      ["   " ++ Nat.repr i ++ ". With reference to paragraph " ++ Nat.repr i ++
       " of the petition/plaint, it is submitted that",
       "      " ++ f ++ " - This is denied. The correct position is that [COUNTER FACT].",
       ""]) 1 facts ++
    (if ¬ legal_provisions.isEmpty then
      ["3. APPLICABLE LEGAL PROVISIONS:", ""] ++
      numberedBlocks (fun i p =>
        ["   " ++ Nat.repr i ++ ". " ++ p.act ++ ", Section " ++ p.sec ++ ":",
         "      The Petitioner/Plaintiff has misinterpreted this provision. The correct",
         "      interpretation is that [INTERPRETATION].", ""]) 1 legal_provisions
     else []) ++
    (if ¬ case_precedents.isEmpty then
      ["4. RELEVANT CASE LAW:", ""] ++
      numberedBlocks (fun i c =>
        ["   " ++ Nat.repr i ++ ". " ++ c.parties ++ " (" ++ c.citation ++ "):",
         "      This case is distinguishable on facts as [DISTINCTION].", ""])
        1 case_precedents
     else []) ++
    (if include_arguments ∧ ¬ arguments.isEmpty then
      ["5. COUNTER ARGUMENTS:", ""] ++
      numberedBlocks (fun i a =>
        ["   " ++ Nat.repr i ++ ". In response to the argument that " ++ a ++
         ", it is submitted that",
         "      [COUNTER ARGUMENT]."]) 1 arguments ++
      [""]
     else []) ++
    ["6. PRAYER:", "",
     "   In view of the above submissions, it is most respectfully prayed that this Hon\x27ble",
     "   Court may be pleased to dismiss the petition/plaint with costs.", "",
     "FILED BY:", "", "", "ADVOCATE FOR THE RESPONDENT/DEFENDANT", "",
     "PLACE: _____", "DATE: " ++ today_dmy]
  String.intercalate "\n" content

/-- `CaseFileDrafter._generate_rejoinder`. -/
def CaseFileDrafter.generate_rejoinder (parties : ApiParties) (facts : List String)
    (legal_provisions : List LegalProvision) (case_precedents : List CasePrecedent)
    (arguments : List String) (court : String)
    (include_arguments : Bool) (today_dmy : String) : String :=
  let content : List String :=
    ["IN THE " ++ pyUpper court, "", "CASE NO. _____ OF _____", "",
     "IN THE MATTER OF:", "", parties.petitioner, "... PETITIONER/PLAINTIFF", "",
     "VERSUS", "", parties.respondent, "... RESPONDENT/DEFENDANT", "",
     "REJOINDER ON BEHALF OF THE PETITIONER/PLAINTIFF", "",
     "1. INTRODUCTION:", "",
     "   The Petitioner/Plaintiff submits this rejoinder to the reply filed by the",
     "   Respondent/Defendant and reiterates the submissions made in the petition/plaint.",
     "   The Petitioner/Plaintiff further submits as under:", "",
     "2. REJOINDER TO PRELIMINARY OBJECTIONS:", "",
     "   a) The objection that the petition/plaint is not maintainable is baseless as",
     "      [REASON].",
     "   b) The petition/plaint is well within the limitation period as [REASON].",
     "   c) The petition/plaint clearly discloses a cause of action as [REASON].", "",
     "3. REJOINDER TO REPLY ON FACTS:", ""] ++
    numberedBlocks (fun i f =>
      ["   " ++ Nat.repr i ++ ". The Respondent/Defendant has denied the fact that " ++
       f ++ ".",
       "      This denial is false and misleading. The truth is that [EXPLANATION].",
       ""]) 1 facts ++
    (if ¬ legal_provisions.isEmpty then
      ["4. CORRECT INTERPRETATION OF LEGAL PROVISIONS:", ""] ++
      numberedBlocks (fun i p =>
        ["   " ++ Nat.repr i ++ ". " ++ p.act ++ ", Section " ++ p.sec ++ ":",
         "      The Respondent/Defendant has misinterpreted this provision. The correct",
         "      interpretation, as submitted in the petition/plaint, is that [INTERPRETATION].",
         ""]) 1 legal_provisions
     else []) ++
    (if ¬ case_precedents.isEmpty then
      ["5. APPLICABILITY OF CASE LAW:", ""] ++
      numberedBlocks (fun i c =>
        ["   " ++ Nat.repr i ++ ". " ++ c.parties ++ " (" ++ c.citation ++ "):",
         "      The Respondent/Defendant\x27s attempt to distinguish this case is misconceived.",
         "      The ratio of this case is squarely applicable as [EXPLANATION].", ""])
        1 case_precedents
     else []) ++
    (if include_arguments ∧ ¬ arguments.isEmpty then
      ["6. REBUTTAL TO COUNTER ARGUMENTS:", ""] ++
      numberedBlocks (fun i a =>
        ["   " ++ Nat.repr i ++ ". The Respondent/Defendant\x27s counter to the argument that " ++ a,
         "      is untenable because [REBUTTAL]."]) 1 arguments ++
      [""]
     else []) ++
    ["7. CONCLUSION:", "",
     "   In view of the above submissions, the Petitioner/Plaintiff reiterates the prayer",
     "   made in the petition/plaint and requests this Hon\x27ble Court to grant the relief",
     "   sought therein.", "",
     "FILED BY:", "", "", "ADVOCATE FOR THE PETITIONER/PLAINTIFF", "",
     "PLACE: _____", "DATE: " ++ today_dmy]
  String.intercalate "\n" content

/-- `CaseFileDrafter._generate_written_statement`. -/
def CaseFileDrafter.generate_written_statement (parties : ApiParties)
    (facts : List String) (legal_provisions : List LegalProvision)
    (case_precedents : List CasePrecedent) (arguments : List String)
    (court : String) (include_arguments : Bool)
    (today_dmy today_day today_monthyear : String) : String :=
  let content : List String :=
    ["IN THE " ++ pyUpper court, "", "SUIT NO. _____ OF _____", "",
     "IN THE MATTER OF:", "", parties.petitioner, "... PLAINTIFF", "",
     "VERSUS", "", parties.respondent, "... DEFENDANT", "",
     "WRITTEN STATEMENT ON BEHALF OF THE DEFENDANT", "",
     "1. PRELIMINARY OBJECTIONS:", "",
     "   The Defendant raises the following preliminary objections:", "",
     "   a) This Hon\x27ble Court has no jurisdiction to try and entertain the present suit.",
     "   b) The suit is barred by limitation.",
     "   c) The plaint does not disclose any cause of action against the Defendant.",
     "   d) The suit is bad for non-joinder of necessary parties.", "",
     "2. PARAGRAPH-WISE REPLY:", ""] ++
    numberedBlocks (fun i f =>
      ["   " ++ Nat.repr i ++ ". With reference to paragraph " ++ Nat.repr i ++
       " of the plaint, it is submitted that",
       "      " ++ f ++ " - This is denied. The correct position is that [COUNTER FACT].",
       ""]) 1 facts ++
    ["3. ADDITIONAL FACTS:", "",
     "   a) [ADDITIONAL FACT 1]",
     "   b) [ADDITIONAL FACT 2]",
     "   c) [ADDITIONAL FACT 3]", ""] ++
    (if ¬ legal_provisions.isEmpty then
      ["4. LEGAL SUBMISSIONS:", ""] ++
      numberedBlocks (fun i p =>
        ["   " ++ Nat.repr i ++ ". " ++ p.act ++ ", Section " ++ p.sec ++ ":",
         "      The Plaintiff has misinterpreted this provision. The correct",
         "      interpretation is that [INTERPRETATION].", ""]) 1 legal_provisions
     else []) ++
    (if ¬ case_precedents.isEmpty then
      ["5. CASE LAW:", ""] ++
      numberedBlocks (fun i c =>
        ["   " ++ Nat.repr i ++ ". " ++ c.parties ++ " (" ++ c.citation ++ "):",
         "      This case is distinguishable on facts as [DISTINCTION].", ""])
        1 case_precedents
     else []) ++
    (if include_arguments ∧ ¬ arguments.isEmpty then
      ["6. COUNTER ARGUMENTS:", ""] ++
      numberedBlocks (fun i a =>
        ["   " ++ Nat.repr i ++ ". In response to the argument that " ++ a ++
         ", it is submitted that",
         "      [COUNTER ARGUMENT]."]) 1 arguments ++
      [""]
     else []) ++
    ["7. PRAYER:", "",
     "   In view of the above submissions, it is most respectfully prayed that this Hon\x27ble",
     "   Court may be pleased to dismiss the suit with costs.", "",
     "VERIFICATION:", "",
     "I, [NAME], the Defendant above named, do hereby verify that the contents of",
     "paragraphs 1 to 7 are true and correct to the best of my knowledge and belief",
     "and nothing material has been concealed therefrom.", "",
     "Verified at [PLACE] on this " ++ today_day ++ " day of " ++ today_monthyear ++ ".",
     "", "DEFENDANT", "",
     "FILED BY:", "", "", "ADVOCATE FOR THE DEFENDANT", "",
     "PLACE: _____", "DATE: " ++ today_dmy]
  String.intercalate "\n" content

/-- `CaseFileDrafter._generate_legal_notice`. -/
def CaseFileDrafter.generate_legal_notice (parties : ApiParties)
    (facts : List String) (legal_provisions : List LegalProvision)
    (_include_arguments _include_prayer : Bool) (today_dmy : String) : String :=
  let content : List String :=
    ["LEGAL NOTICE", "", "Date: " ++ today_dmy, "",
     "To,", parties.respondent, "[ADDRESS]", "",
     "From,", parties.petitioner, "[ADDRESS]", "",
     "Through,", "[ADVOCATE NAME]", "[ADVOCATE ADDRESS]", "",
     "Subject: Legal Notice for [SUBJECT MATTER]", "",
     "Sir/Madam,", "",
     "Under instructions from and on behalf of my client, I hereby serve upon you the following legal notice:",
     "",
     "1. FACTS:", ""] ++
    numberedBlocks (fun i f => ["   " ++ Nat.repr i ++ ". " ++ f]) 1 facts ++
    [""] ++
    (if ¬ legal_provisions.isEmpty then
      ["2. LEGAL PROVISIONS:", ""] ++
      numberedBlocks (fun i p =>
        ["   " ++ Nat.repr i ++ ". As per " ++ p.act ++ ", Section " ++ p.sec ++ ":",
         "      " ++ p.content, ""]) 1 legal_provisions
     else []) ++
    ["3. DEMAND:", "",
     "   In view of the above facts and legal provisions, my client hereby calls upon you to:",
     "",
     "   a) [SPECIFIC DEMAND 1]",
     "   b) [SPECIFIC DEMAND 2]",
     "   c) [SPECIFIC DEMAND 3]", "",
     "4. TIME LIMIT:", "",
     "   You are hereby called upon to comply with the above demands within [NUMBER] days",
     "   from the receipt of this notice, failing which my client will be constrained to",
     "   initiate appropriate legal proceedings against you, civil and/or criminal, at your",
     "   risk, cost, and consequences.", "",
     "5. RESERVATION OF RIGHTS:", "",
     "   This notice is being issued without prejudice to any other rights and remedies",
     "   available to my client under law, which are expressly reserved.", "",
     "Yours faithfully,", "", "",
     "[ADVOCATE NAME]", "Advocate for the Noticee"]
  String.intercalate "\n" content

/-- `CaseFileDrafter._generate_affidavit`. -/
def CaseFileDrafter.generate_affidavit (parties : ApiParties)
    (facts : List String) (court : String)
    (today_day today_monthyear : String) : String :=
  let content : List String :=
    ["IN THE " ++ pyUpper court, "", "CASE NO. _____ OF _____", "",
     "IN THE MATTER OF:", "", parties.petitioner, "... PETITIONER/PLAINTIFF", "",
     "VERSUS", "", parties.respondent, "... RESPONDENT/DEFENDANT", "",
     "AFFIDAVIT", "",
     "I, [NAME], aged about [AGE] years, [OCCUPATION], resident of [ADDRESS], do hereby",
     "solemnly affirm and state on oath as under:", ""] ++
    numberedBlocks (fun i f => [Nat.repr i ++ ". " ++ f]) 1 facts ++
    [""] ++
    ["VERIFICATION:", "",
     "I, the deponent above named, do hereby verify that the contents of paragraphs 1 to",
     Nat.repr facts.length ++ " are true and correct to my knowledge and belief and nothing material",
     "has been concealed therefrom.", "",
     "Verified at [PLACE] on this " ++ today_day ++ " day of " ++ today_monthyear ++ ".",
     "", "DEPONENT"]
  String.intercalate "\n" content

/-- `CaseFileDrafter.draft_case_file`.

`parties` and `facts` stand for `self._extract_parties(brief_text)` and
`self._extract_facts(brief_text)`, the regex text-scraping helpers of the
same file applied to the brief (for the empty brief they yield
`{"petitioner": "The Petitioner", "respondent": "The Respondent"}` and `[]`);
`today_*` stand for the `datetime.now().strftime(...)` calls.  The dispatch
and its final `else` branch — which, per the source comment, defaults to a
petition when the document type is not recognized — are translated from the
source. -/
def CaseFileDrafter.draft_case_file (parties : ApiParties) (facts : List String)
    (analysis_results : ApiAnalysisResults) (options : DraftOptions)
    (today_dmy today_full today_day today_monthyear : String) : ApiDraft :=
  let legal_provisions := CaseFileDrafter.extract_legal_provisions analysis_results
  let case_precedents := CaseFileDrafter.extract_case_precedents analysis_results
  let arguments := CaseFileDrafter.extract_arguments analysis_results
  let document_type := pyLower (options.document_type.getD "petition")
  let court := options.court.getD "High Court"
  let include_arguments := options.include_arguments.getD true
  let include_prayer := options.include_prayer.getD true
  let (content, title) :=
    if document_type = "petition" then
      (CaseFileDrafter.generate_petition parties facts legal_provisions
        case_precedents arguments court include_arguments include_prayer today_dmy,
       "PETITION - " ++ parties.petitioner ++ " vs. " ++ parties.respondent)
    else if document_type = "reply" then
      (CaseFileDrafter.generate_reply parties facts legal_provisions
        case_precedents arguments court include_arguments today_dmy,
       "REPLY - " ++ parties.petitioner ++ " vs. " ++ parties.respondent)
    else if document_type = "rejoinder" then
      (CaseFileDrafter.generate_rejoinder parties facts legal_provisions
        case_precedents arguments court include_arguments today_dmy,
       "REJOINDER - " ++ parties.petitioner ++ " vs. " ++ parties.respondent)
    else if document_type = "written_statement" then
      (CaseFileDrafter.generate_written_statement parties facts legal_provisions
        case_precedents arguments court include_arguments today_dmy today_day
        today_monthyear,
       "WRITTEN STATEMENT - " ++ parties.petitioner ++ " vs. " ++ parties.respondent)
    else if document_type = "legal_notice" then
      (CaseFileDrafter.generate_legal_notice parties facts legal_provisions
        include_arguments include_prayer today_dmy,
       "LEGAL NOTICE - " ++ parties.petitioner ++ " to " ++ parties.respondent)
    else if document_type = "affidavit" then
      (CaseFileDrafter.generate_affidavit parties facts court today_day today_monthyear,
       "AFFIDAVIT - " ++ parties.petitioner)
    else
      (CaseFileDrafter.generate_petition parties facts legal_provisions
        case_precedents arguments court include_arguments include_prayer today_dmy,
       "PETITION - " ++ parties.petitioner ++ " vs. " ++ parties.respondent)
  { title := title
    content := content
    document_type := document_type
    court := court
    date := today_full
    parties := parties }

/-! ## Shape predicates used by the normalizer verification -/

/-- Normalized-shape predicate: every whitespace character is a plain space
and no two adjacent characters are both whitespace. -/
def CollapsedP (l : List Char) : Prop :=
  (∀ c ∈ l, isPyWs c = true → c = ' ') ∧
  List.Chain' (fun a b => ¬(isPyWs a = true ∧ isPyWs b = true)) l

/-- Head-is-not-whitespace predicate. -/
def HeadNotWs : List Char → Prop
  | [] => True
  | c :: _ => isPyWs c = false

/-! ## Concrete instances used in the claim checks -/

/-- The parties `CaseFileDrafter._extract_parties` yields for the empty
brief (no pattern matches, so both defaults survive). -/
def exApiParties : ApiParties :=
  { petitioner := "The Petitioner", respondent := "The Respondent" }

/-- An empty `analysis_results` dict. -/
def exApiAnalysisEmpty : ApiAnalysisResults :=
  { lawSections := [], caseHistories := [], analysis := none }

/-- Options requesting the unsupported document type `summons`. -/
def exSummonsOptions : DraftOptions :=
  { document_type := some "summons", court := none, include_arguments := none,
    include_prayer := none }

/-- Five multi-word noun chunks (each between two and five words). -/
def exNounChunks : List String :=
  ["breach of the contract", "supply agreement dispute", "penalty clause issue",
   "equipment delivery failure", "force majeure defense"]

/-- An empty entity map. -/
def exEmptyEntityMap : EntityMap := { person := [], org := [], date := [], location := [] }

/-- Eleven extracted act/section pairs whose query strings are pairwise
distinct — more than the query cap on their own. -/
def exActsEleven : List ActSection :=
  [{ act := "Indian Penal Code", sec := "420" },
   { act := "Indian Contract Act", sec := "73" },
   { act := "Indian Evidence Act", sec := "65" },
   { act := "Companies Act", sec := "166" },
   { act := "Specific Relief Act", sec := "10" },
   { act := "Consumer Protection Act", sec := "6" },
   { act := "Negotiable Instruments Act", sec := "138" },
   { act := "Transfer of Property Act", sec := "54" },
   { act := "Arbitration and Conciliation Act", sec := "34" },
   { act := "Information Technology Act", sec := "66" },
   { act := "Limitation Act", sec := "5" }]

/-- Law-section and case-history records with colliding and distinct keys. -/
def exLawLow : LawSection :=
  { title := "Indian Penal Code", sectionNumber := "420", content := "low", relevance := 3 }

/-- Same key as `exLawLow`, higher relevance. -/
def exLawHigh : LawSection :=
  { title := "Indian Penal Code", sectionNumber := "420", content := "high", relevance := 5 }

/-- A record with a distinct key. -/
def exLawOther : LawSection :=
  { title := "Indian Contract Act", sectionNumber := "73", content := "other", relevance := 7 }

/-- Case histories with the same citation key. -/
def exCaseLow : CaseHistory :=
  { citation := "AIR 2019 SC 1234", parties := "A vs B", holdings := "h1",
    relevance := 2, date := "" }

/-- Same citation as `exCaseLow`, higher relevance. -/
def exCaseHigh : CaseHistory :=
  { citation := "AIR 2019 SC 1234", parties := "C vs D", holdings := "h2",
    relevance := 6, date := "" }

/-- Connector outcomes: two succeeding connectors around a failing one. -/
def exCrsL : List (Except String (List LawSection)) :=
  [Except.ok [exLawLow, exLawOther], Except.error "connector down", Except.ok [exLawHigh]]

/-- Case-history connector outcomes of the same shape. -/
def exCrsC : List (Except String (List CaseHistory)) :=
  [Except.ok [exCaseLow], Except.error "connector down", Except.ok [exCaseHigh]]

/-- Connector outcomes in which every connector raised. -/
def exCrsLFail : List (Except String (List LawSection)) :=
  [Except.error "network error", Except.error "HTTP 500"]

/-- Case-history connector outcomes in which every connector raised. -/
def exCrsCFail : List (Except String (List CaseHistory)) :=
  [Except.error "network error", Except.error "HTTP 500"]

/-- Tie pair: same key and equal relevance, earlier connector first. -/
def exLawTieA : LawSection :=
  { title := "Indian Penal Code", sectionNumber := "420",
    content := "from the first connector", relevance := 5 }

/-- The later record of the law-section tie pair. -/
def exLawTieB : LawSection :=
  { title := "Indian Penal Code", sectionNumber := "420",
    content := "from the second connector", relevance := 5 }

/-- Tie pair of case histories. -/
def exCaseTieA : CaseHistory :=
  { citation := "AIR 2017 SC 567", parties := "first", holdings := "h",
    relevance := 4, date := "" }

/-- The later record of the case-history tie pair. -/
def exCaseTieB : CaseHistory :=
  { citation := "AIR 2017 SC 567", parties := "second", holdings := "h",
    relevance := 4, date := "" }

/-- Two connectors returning the law-section tie pair in order. -/
def exCrsLTie : List (Except String (List LawSection)) :=
  [Except.ok [exLawTieA], Except.ok [exLawTieB]]

/-- Two connectors returning the case-history tie pair in order. -/
def exCrsCTie : List (Except String (List CaseHistory)) :=
  [Except.ok [exCaseTieA], Except.ok [exCaseTieB]]

/-- A deterministic stand-in for the external sentence tokenizer. -/
def exSentTok : String → List String := fun s => if s = "" then [] else [s]

/-- A brief analysis leaning civil. -/
def exBAws : BriefAnalysis :=
  { domains := ["civil"], acts := [], summary := "The supplier failed to deliver." }

/-- A small analysis dict. -/
def exAnalysisWS : AnalysisOutput :=
  { summary := "", arguments := ["The record clearly proves the breach."],
    challenges := ["the claim is time-barred"], recommendations := [] }

/-- Entities with recognized parties on both sides. -/
def exEntitiesWS : AgentEntities :=
  { persons := [], organizations := [], dates := [], locations := [],
    monetary_values := [],
    potential_parties :=
      { petitioners := ["ABC Corporation"], respondents := ["XYZ Ltd"],
        plaintiffs := [], defendants := [] } }

/-- Entities with no recognized parties or persons at all. -/
def exEntitiesEmpty : AgentEntities :=
  { persons := [], organizations := [], dates := [], locations := [],
    monetary_values := [],
    potential_parties :=
      { petitioners := [], respondents := [], plaintiffs := [], defendants := [] } }

/-- A brief analysis with no signal at all. -/
def exBAEmpty : BriefAnalysis := { domains := [], acts := [], summary := "" }

/-- An analysis dict with no signal at all. -/
def exAnalysisEmpty : AnalysisOutput :=
  { summary := "", arguments := [], challenges := [], recommendations := [] }

/-! # Verification

Helper lemmas first, then the claim checks. -/

/-! ## String non-emptiness helpers -/

theorem str_ne_empty_of_pos {s : String} (h : 0 < s.length) : s ≠ "" := by
  intro he
  subst he
  exact Nat.lt_irrefl 0 h

theorem str_length_pos_of_ne {s : String} (h : s ≠ "") : 0 < s.length := by
  rcases Nat.eq_zero_or_pos s.length with h0 | h0
  · exfalso
    apply h
    cases s with
    | mk data =>
      simp only [String.length] at h0
      rw [List.length_eq_zero] at h0
      rw [h0]
  · exact h0

theorem append_ne_left {s : String} (h : s ≠ "") (t : String) : s ++ t ≠ "" := by
  apply str_ne_empty_of_pos
  rw [String.length_append]
  have := str_length_pos_of_ne h
  omega

theorem append_ne_right (s : String) {t : String} (h : t ≠ "") : s ++ t ≠ "" := by
  apply str_ne_empty_of_pos
  rw [String.length_append]
  have := str_length_pos_of_ne h
  omega

theorem infoGetTruthy_some_ne_empty (info : Info) (k : String) {v : String}
    (h : infoGetTruthy info k = some v) : v ≠ "" := by
  cases hk : info k with
  | none =>
    simp only [infoGetTruthy, hk] at h
    exact Option.noConfusion h
  | some w =>
    simp only [infoGetTruthy, hk] at h
    by_cases hw : w = ""
    · rw [if_pos hw] at h; simp at h
    · rw [if_neg hw] at h
      simp only [Option.some.injEq] at h
      rw [← h]
      exact hw

/-! ## Properties of the first-occurrence deduplicator `pyDedup` -/

theorem pyDedupAux_spec {α : Type} [DecidableEq α] :
    ∀ (l seen : List α), (pyDedupAux seen l).Nodup ∧
      ∀ a ∈ pyDedupAux seen l, a ∉ seen := by
  intro l
  induction l with
  | nil => intro seen; simp [pyDedupAux]
  | cons x xs ih =>
    intro seen
    by_cases hx : x ∈ seen
    · simpa [pyDedupAux, hx] using ih seen
    · simp only [pyDedupAux, if_neg hx]
      obtain ⟨hnd, hmem⟩ := ih (x :: seen)
      refine ⟨List.nodup_cons.mpr ⟨fun hc => ?_, hnd⟩, ?_⟩
      · exact hmem x hc (List.mem_cons_self x seen)
      · intro a ha
        rcases List.mem_cons.mp ha with rfl | ha'
        · exact hx
        · intro haseen
          exact hmem a ha' (List.mem_cons_of_mem _ haseen)

theorem pyDedup_nodup {α : Type} [DecidableEq α] (l : List α) :
    (pyDedup l).Nodup := (pyDedupAux_spec l []).1

theorem pyDedupAux_subset {α : Type} [DecidableEq α] :
    ∀ (l seen : List α), ∀ a ∈ pyDedupAux seen l, a ∈ l := by
  intro l
  induction l with
  | nil => intro seen a ha; simp [pyDedupAux] at ha
  | cons x xs ih =>
    intro seen a ha
    by_cases hx : x ∈ seen
    · simp only [pyDedupAux, if_pos hx] at ha
      exact List.mem_cons_of_mem _ (ih seen a ha)
    · simp only [pyDedupAux, if_neg hx] at ha
      rcases List.mem_cons.mp ha with rfl | ha'
      · exact List.mem_cons_self _ _
      · exact List.mem_cons_of_mem _ (ih (x :: seen) a ha')

theorem pyDedup_subset {α : Type} [DecidableEq α] (l : List α) :
    ∀ a ∈ pyDedup l, a ∈ l := pyDedupAux_subset l []

/-! ## Theory of the aggregator dedup and sort -/

section DedupTheory
variable {α : Type} {κ : Type} [DecidableEq κ] (key : α → κ) (rel : α → Int)

theorem dedupUpd_eq_of_no_key (r : α) (acc : List α)
    (h : ∀ a ∈ acc, key a ≠ key r) :
    dedupUpd key rel r acc = acc ++ [r] := by
  induction acc with
  | nil => rfl
  | cons x xs ih =>
    have hx : key x ≠ key r := h x (List.mem_cons_self x xs)
    simp only [dedupUpd, if_neg hx, List.cons_append, List.cons.injEq, true_and]
    exact ih (fun a ha => h a (List.mem_cons_of_mem _ ha))

theorem dedupUpd_eq_of_split (r : α) (a1 : List α) (x : α) (a2 : List α)
    (hx : key x = key r) (h1 : ∀ a ∈ a1, key a ≠ key r) :
    dedupUpd key rel r (a1 ++ x :: a2) =
      a1 ++ (if rel r > rel x then r else x) :: a2 := by
  induction a1 with
  | nil =>
    simp only [List.nil_append, dedupUpd, if_pos hx]
    split <;> rfl
  | cons a as ih =>
    have ha : key a ≠ key r := h1 a (List.mem_cons_self a as)
    simp only [List.cons_append, dedupUpd, if_neg ha, List.cons.injEq, true_and]
    exact ih (fun b hb => h1 b (List.mem_cons_of_mem _ hb))

theorem exists_first_key {k : κ} {acc : List α} (h : k ∈ acc.map key) :
    ∃ a1 x a2, acc = a1 ++ x :: a2 ∧ key x = k ∧ ∀ a ∈ a1, key a ≠ k := by
  induction acc with
  | nil => simp at h
  | cons y ys ih =>
    by_cases hy : key y = k
    · exact ⟨[], y, ys, rfl, hy, by simp⟩
    · have h' : k ∈ ys.map key := by
        rcases List.mem_map.mp h with ⟨a, ha, hak⟩
        rcases List.mem_cons.mp ha with rfl | ha'
        · exact absurd hak hy
        · exact List.mem_map.mpr ⟨a, ha', hak⟩
      obtain ⟨a1, x, a2, hsplit, hxk, h1⟩ := ih h'
      exact ⟨y :: a1, x, a2, by rw [hsplit]; simp, hxk, by
        intro a ha
        rcases List.mem_cons.mp ha with rfl | ha'
        · exact hy
        · exact h1 a ha'⟩

theorem dedupUpd_map_key_of_mem (r : α) (acc : List α)
    (h : key r ∈ acc.map key) :
    (dedupUpd key rel r acc).map key = acc.map key := by
  obtain ⟨a1, x, a2, rfl, hxk, h1⟩ := exists_first_key key h
  rw [dedupUpd_eq_of_split key rel r a1 x a2 hxk h1]
  by_cases hrel : rel r > rel x <;> simp [hrel, hxk]

theorem dedupUpd_map_key_of_not_mem (r : α) (acc : List α)
    (h : key r ∉ acc.map key) :
    (dedupUpd key rel r acc).map key = acc.map key ++ [key r] := by
  rw [dedupUpd_eq_of_no_key key rel r acc
    (fun a ha e => h (List.mem_map.mpr ⟨a, ha, e⟩))]
  simp

theorem dedupUpd_nodup_keys (r : α) (acc : List α)
    (h : (acc.map key).Nodup) : ((dedupUpd key rel r acc).map key).Nodup := by
  by_cases hm : key r ∈ acc.map key
  · rw [dedupUpd_map_key_of_mem key rel r acc hm]; exact h
  · rw [dedupUpd_map_key_of_not_mem key rel r acc hm]
    simp [List.nodup_append, h, hm]

theorem dedupByKey_append_single (l : List α) (r : α) :
    dedupByKey key rel (l ++ [r]) = dedupUpd key rel r (dedupByKey key rel l) := by
  simp [dedupByKey, List.foldl_append]

theorem dedupByKey_nodup_keys (l : List α) :
    ((dedupByKey key rel l).map key).Nodup := by
  induction l using List.reverseRecOn with
  | nil => simp [dedupByKey]
  | append_singleton l r ih =>
    rw [dedupByKey_append_single]
    exact dedupUpd_nodup_keys key rel r _ ih

theorem dedupByKey_coverage (l : List α) :
    ∀ y ∈ l, key y ∈ (dedupByKey key rel l).map key := by
  induction l using List.reverseRecOn with
  | nil => simp
  | append_singleton l r ih =>
    intro y hy
    rw [dedupByKey_append_single]
    have step : ∀ k, k ∈ (dedupByKey key rel l).map key ∨ k = key r →
        k ∈ (dedupUpd key rel r (dedupByKey key rel l)).map key := by
      intro k hk
      by_cases hm : key r ∈ (dedupByKey key rel l).map key
      · rw [dedupUpd_map_key_of_mem key rel r _ hm]
        rcases hk with hk | rfl
        · exact hk
        · exact hm
      · rw [dedupUpd_map_key_of_not_mem key rel r _ hm]
        rcases hk with hk | rfl
        · exact List.mem_append_left _ hk
        · exact List.mem_append_right _ (by simp)
    rcases List.mem_append.mp hy with hy' | hy'
    · exact step _ (Or.inl (ih y hy'))
    · rcases List.mem_singleton.mp hy' with rfl
      exact step _ (Or.inr rfl)

end DedupTheory

section DedupTheory2
variable {α : Type} {κ : Type} [DecidableEq κ] (key : α → κ) (rel : α → Int)

theorem key_unique_of_nodup {d1 d2 : List α} {x0 x : α}
    (nd : (((d1 ++ x0 :: d2)).map key).Nodup)
    (hx : x ∈ d1 ∨ x ∈ d2) (hk : key x = key x0) : False := by
  rw [List.map_append, List.nodup_append] at nd
  obtain ⟨nd1, nd2, hdisj⟩ := nd
  rcases hx with hx | hx
  · exact hdisj (List.mem_map.mpr ⟨x, hx, rfl⟩) (by simp [hk])
  · rw [List.map_cons, List.nodup_cons] at nd2
    exact nd2.1 (hk ▸ List.mem_map.mpr ⟨x, hx, rfl⟩)

theorem dedupUpd_mem (r : α) (acc : List α) :
    ∀ x ∈ dedupUpd key rel r acc, x ∈ acc ∨ x = r := by
  induction acc with
  | nil => simp [dedupUpd]
  | cons a as ih =>
    intro x hx
    by_cases ha : key a = key r
    · by_cases hrel : rel r > rel a
      · simp only [dedupUpd, if_pos ha, if_pos hrel] at hx
        rcases List.mem_cons.mp hx with rfl | hx'
        · exact Or.inr rfl
        · exact Or.inl (List.mem_cons_of_mem _ hx')
      · simp only [dedupUpd, if_pos ha, if_neg hrel] at hx
        exact Or.inl hx
    · simp only [dedupUpd, if_neg ha] at hx
      rcases List.mem_cons.mp hx with rfl | hx'
      · exact Or.inl (List.mem_cons_self _ _)
      · rcases ih x hx' with h | h
        · exact Or.inl (List.mem_cons_of_mem _ h)
        · exact Or.inr h

theorem dedupByKey_mem (l : List α) : ∀ x ∈ dedupByKey key rel l, x ∈ l := by
  induction l using List.reverseRecOn with
  | nil => simp [dedupByKey]
  | append_singleton l r ih =>
    intro x hx
    rw [dedupByKey_append_single] at hx
    rcases dedupUpd_mem key rel r _ x hx with h | rfl
    · exact List.mem_append_left _ (ih x h)
    · exact List.mem_append_right _ (by simp)

theorem dedupByKey_dominates (l : List α) :
    ∀ x ∈ dedupByKey key rel l, ∀ y ∈ l, key y = key x → rel y ≤ rel x := by
  induction l using List.reverseRecOn with
  | nil => simp [dedupByKey]
  | append_singleton l r ih =>
    intro x hx y hy hk
    rw [dedupByKey_append_single] at hx
    have nd := dedupByKey_nodup_keys key rel l
    by_cases hm : key r ∈ (dedupByKey key rel l).map key
    · obtain ⟨d1, x0, d2, hsplit, hx0, h1⟩ := exists_first_key key hm
      rw [hsplit, dedupUpd_eq_of_split key rel r d1 x0 d2 hx0 h1] at hx
      rw [hsplit] at nd
      by_cases hrel : rel r > rel x0
      · rw [if_pos hrel] at hx
        rcases List.mem_append.mp hx with hx1 | hx2
        · -- x ∈ d1
          rcases List.mem_append.mp hy with hy' | hy'
          · exact ih x (hsplit ▸ List.mem_append_left _ hx1) y hy' hk
          · rcases List.mem_singleton.mp hy' with rfl
            exact (key_unique_of_nodup key nd (Or.inl hx1) (hk.symm.trans hx0.symm)).elim
        · rcases List.mem_cons.mp hx2 with rfl | hx3
          · -- x = r
            rcases List.mem_append.mp hy with hy' | hy'
            · have h0 : rel y ≤ rel x0 :=
                ih x0 (hsplit ▸ List.mem_append_right _ (List.mem_cons_self _ _)) y hy'
                  (hk.trans hx0.symm)
              omega
            · rcases List.mem_singleton.mp hy' with rfl
              exact le_refl _
          · -- x ∈ d2
            rcases List.mem_append.mp hy with hy' | hy'
            · exact ih x (hsplit ▸ List.mem_append_right _ (List.mem_cons_of_mem _ hx3)) y hy' hk
            · rcases List.mem_singleton.mp hy' with rfl
              exact (key_unique_of_nodup key nd (Or.inr hx3) (hk.symm.trans hx0.symm)).elim
      · rw [if_neg hrel] at hx
        -- d' = d unchanged
        rcases List.mem_append.mp hy with hy' | hy'
        · exact ih x (hsplit ▸ hx) y hy' hk
        · rcases List.mem_singleton.mp hy' with rfl
          -- y = r, key r = key x, x ∈ d1 ++ x0 :: d2
          rcases List.mem_append.mp hx with hx1 | hx2
          · exact (key_unique_of_nodup key nd (Or.inl hx1) (hk.symm.trans hx0.symm)).elim
          · rcases List.mem_cons.mp hx2 with rfl | hx3
            · -- x = x0
              omega
            · exact (key_unique_of_nodup key nd (Or.inr hx3) (hk.symm.trans hx0.symm)).elim
    · rw [dedupUpd_eq_of_no_key key rel r _
        (fun a ha e => hm (List.mem_map.mpr ⟨a, ha, e⟩))] at hx
      rcases List.mem_append.mp hx with hx1 | hx2
      · rcases List.mem_append.mp hy with hy' | hy'
        · exact ih x hx1 y hy' hk
        · rcases List.mem_singleton.mp hy' with rfl
          exact absurd (List.mem_map.mpr ⟨x, hx1, hk.symm⟩) hm
      · rcases List.mem_singleton.mp hx2 with rfl
        rcases List.mem_append.mp hy with hy' | hy'
        · exact absurd (hk ▸ dedupByKey_coverage key rel l y hy') hm
        · rcases List.mem_singleton.mp hy' with rfl
          exact le_refl _

end DedupTheory2

section DedupTheory3
variable {α : Type} {κ : Type} [DecidableEq κ] (key : α → κ) (rel : α → Int)

theorem dedupByKey_first_wins (l : List α) :
    ∀ x ∈ dedupByKey key rel l, ∃ l1 l2, l = l1 ++ x :: l2 ∧
      ∀ y ∈ l1, key y = key x → rel y < rel x := by
  induction l using List.reverseRecOn with
  | nil => simp [dedupByKey]
  | append_singleton l r ih =>
    intro x hx
    rw [dedupByKey_append_single] at hx
    have nd := dedupByKey_nodup_keys key rel l
    by_cases hm : key r ∈ (dedupByKey key rel l).map key
    · obtain ⟨d1, x0, d2, hsplit, hx0, h1⟩ := exists_first_key key hm
      rw [hsplit, dedupUpd_eq_of_split key rel r d1 x0 d2 hx0 h1] at hx
      by_cases hrel : rel r > rel x0
      · rw [if_pos hrel] at hx
        rcases List.mem_append.mp hx with hx1 | hx2
        · obtain ⟨l1, l2, hl, hstrict⟩ := ih x (hsplit ▸ List.mem_append_left _ hx1)
          exact ⟨l1, l2 ++ [r], by rw [hl]; simp, hstrict⟩
        · rcases List.mem_cons.mp hx2 with rfl | hx3
          · refine ⟨l, [], rfl, ?_⟩
            intro y hy hk
            have hle : rel y ≤ rel x0 :=
              dedupByKey_dominates key rel l x0
                (hsplit ▸ List.mem_append_right _ (List.mem_cons_self _ _)) y hy
                (hk.trans hx0.symm)
            omega
          · obtain ⟨l1, l2, hl, hstrict⟩ :=
              ih x (hsplit ▸ List.mem_append_right _ (List.mem_cons_of_mem _ hx3))
            exact ⟨l1, l2 ++ [r], by rw [hl]; simp, hstrict⟩
      · rw [if_neg hrel] at hx
        obtain ⟨l1, l2, hl, hstrict⟩ := ih x (hsplit ▸ hx)
        exact ⟨l1, l2 ++ [r], by rw [hl]; simp, hstrict⟩
    · rw [dedupUpd_eq_of_no_key key rel r _
        (fun a ha e => hm (List.mem_map.mpr ⟨a, ha, e⟩))] at hx
      rcases List.mem_append.mp hx with hx1 | hx2
      · obtain ⟨l1, l2, hl, hstrict⟩ := ih x hx1
        exact ⟨l1, l2 ++ [r], by rw [hl]; simp, hstrict⟩
      · rcases List.mem_singleton.mp hx2 with rfl
        refine ⟨l, [], rfl, ?_⟩
        intro y hy hk
        exact absurd (hk ▸ dedupByKey_coverage key rel l y hy) hm

theorem sortByRelevanceDesc_perm (l : List α) :
    (sortByRelevanceDesc rel l).Perm l :=
  List.perm_insertionSort _ l

theorem sortByRelevanceDesc_sorted (l : List α) :
    (sortByRelevanceDesc rel l).Sorted (fun a b => rel b ≤ rel a) := by
  haveI h1 : IsTotal α (fun a b => rel b ≤ rel a) := ⟨fun a b => le_total (rel b) (rel a)⟩
  haveI h2 : IsTrans α (fun a b => rel b ≤ rel a) := ⟨fun a b c u v => le_trans v u⟩
  exact List.sorted_insertionSort _ l

theorem collectOks_filter_isOk {β : Type} (crs : List (Except String (List β))) :
    collectOks (crs.filter Except.isOk) = collectOks crs := by
  induction crs with
  | nil => rfl
  | cons c cs ih => cases c <;> simp [collectOks, Except.isOk, Except.toBool, List.filter, ih]

theorem collectOks_all_error {β : Type} (crs : List (Except String (List β)))
    (h : ∀ c ∈ crs, c.isOk = false) : collectOks crs = [] := by
  induction crs with
  | nil => rfl
  | cons c cs ih =>
    cases c with
    | ok v => simpa [Except.isOk, Except.toBool] using h _ (List.mem_cons_self _ _)
    | error e => exact ih (fun c hc => h c (List.mem_cons_of_mem _ hc))

end DedupTheory3

/-! ## Lemmas on the spec-modelled text normalizer -/

theorem normQuoteChar_id (c : Char) : normQuoteChar c = c := by
  unfold normQuoteChar
  split
  · rename_i h; exact h.symm
  · rfl

theorem map_normQuoteChar_id (x : List Char) : x.map normQuoteChar = x := by
  rw [show normQuoteChar = id from funext normQuoteChar_id, List.map_id]

theorem preprocess_text_eq (l : List Char) :
    preprocess_text l = (pyStrip (collapseWs l)).map normAposChar := by
  rw [preprocess_text, map_normQuoteChar_id]

theorem isPyWs_normAposChar (c : Char) : isPyWs (normAposChar c) = isPyWs c := by
  unfold normAposChar
  split
  · rename_i h
    simp only [Bool.or_eq_true, decide_eq_true_eq] at h
    rcases h with (rfl | rfl) | rfl <;> rfl
  · rfl

theorem normAposChar_space : normAposChar ' ' = ' ' := rfl

theorem normAposChar_idem (c : Char) : normAposChar (normAposChar c) = normAposChar c := by
  unfold normAposChar
  split <;> rfl

theorem collapseAux_map (l : List Char) : ∀ b,
    collapseAux b (l.map normAposChar) = (collapseAux b l).map normAposChar := by
  induction l with
  | nil => intro b; rfl
  | cons c cs ih =>
    intro b
    by_cases hws : isPyWs c = true
    · cases b
      · simp [collapseAux, isPyWs_normAposChar, hws, ih, normAposChar_space]
      · simp [collapseAux, isPyWs_normAposChar, hws, ih]
    · simp only [Bool.not_eq_true] at hws
      simp [collapseAux, isPyWs_normAposChar, hws, ih]

theorem dropWhile_map_normApos (l : List Char) :
    List.dropWhile isPyWs (l.map normAposChar) =
      (List.dropWhile isPyWs l).map normAposChar := by
  rw [List.dropWhile_map,
    show (isPyWs ∘ normAposChar) = isPyWs from funext isPyWs_normAposChar]

theorem pyStrip_map_normApos (l : List Char) :
    pyStrip (l.map normAposChar) = (pyStrip l).map normAposChar := by
  unfold pyStrip dropTrailingWs
  rw [dropWhile_map_normApos, ← List.map_reverse, dropWhile_map_normApos, List.map_reverse]

theorem collapseAux_collapsed (l : List Char) : ∀ b,
    CollapsedP (collapseAux b l) ∧ (b = true → HeadNotWs (collapseAux b l)) := by
  induction l with
  | nil =>
    intro b
    exact ⟨⟨by simp [collapseAux], by rw [show collapseAux b ([] : List Char) = [] from rfl]; exact List.chain'_nil⟩, fun _ => trivial⟩
  | cons c cs ih =>
    intro b
    by_cases hws : isPyWs c = true
    · cases b
      · -- b = false: emit ' ' and continue with flag true
        rw [show collapseAux false (c :: cs) = ' ' :: collapseAux true cs from by
          simp [collapseAux, hws]]
        obtain ⟨⟨hmem, hchain⟩, hhead⟩ := ih true
        refine ⟨⟨?_, ?_⟩, fun h => absurd h (by simp)⟩
        · intro d hd hdws
          rcases List.mem_cons.mp hd with rfl | hd'
          · rfl
          · exact hmem d hd' hdws
        · rw [List.chain'_cons']
          refine ⟨?_, hchain⟩
          intro y hy hcontra
          have hhead' := hhead rfl
          cases hrec : collapseAux true cs with
          | nil => rw [hrec] at hy; simp at hy
          | cons z zs =>
            rw [hrec] at hy hhead'
            simp only [List.head?_cons, Option.mem_def, Option.some.injEq] at hy
            subst hy
            simp only [HeadNotWs] at hhead'
            rw [hhead'] at hcontra
            simp at hcontra
      · -- b = true: whitespace is absorbed
        rw [show collapseAux true (c :: cs) = collapseAux true cs from by
          simp [collapseAux, hws]]
        exact ih true
    · simp only [Bool.not_eq_true] at hws
      rw [show collapseAux b (c :: cs) = c :: collapseAux false cs from by
        simp [collapseAux, hws]]
      obtain ⟨⟨hmem, hchain⟩, _⟩ := ih false
      refine ⟨⟨?_, ?_⟩, fun _ => hws⟩
      · intro d hd hdws
        rcases List.mem_cons.mp hd with rfl | hd'
        · rw [hws] at hdws; exact absurd hdws (by simp)
        · exact hmem d hd' hdws
      · rw [List.chain'_cons']
        refine ⟨?_, hchain⟩
        intro y _ hcontra
        rw [hws] at hcontra
        exact absurd hcontra.1 (by simp)

theorem collapseAux_of_collapsed (l : List Char) (h : CollapsedP l) :
    collapseAux false l = l ∧ (HeadNotWs l → collapseAux true l = l) := by
  induction l with
  | nil => exact ⟨rfl, fun _ => rfl⟩
  | cons c cs ih =>
    obtain ⟨hmem, hchain⟩ := h
    have hcs : CollapsedP cs :=
      ⟨fun d hd => hmem d (List.mem_cons_of_mem _ hd), hchain.tail⟩
    by_cases hws : isPyWs c = true
    · have hc : c = ' ' := hmem c (List.mem_cons_self _ _) hws
      constructor
      · rw [show collapseAux false (c :: cs) = ' ' :: collapseAux true cs from by
          simp [collapseAux, hws]]
        have hhead : HeadNotWs cs := by
          cases cs with
          | nil => trivial
          | cons z zs =>
            have hz : ¬(isPyWs c = true ∧ isPyWs z = true) :=
              (List.chain'_cons.mp hchain).1
            show isPyWs z = false
            rcases Bool.eq_false_or_eq_true (isPyWs z) with h | h
            · exact absurd ⟨hws, h⟩ hz
            · exact h
        rw [(ih hcs).2 hhead, hc]
      · intro hh
        have hcf : isPyWs c = false := hh
        rw [hws] at hcf
        simp at hcf
    · simp only [Bool.not_eq_true] at hws
      have e1 : collapseAux false (c :: cs) = c :: collapseAux false cs := by
        simp [collapseAux, hws]
      have e2 : collapseAux true (c :: cs) = c :: collapseAux false cs := by
        simp [collapseAux, hws]
      rw [e1, e2, (ih hcs).1]
      exact ⟨rfl, fun _ => rfl⟩

theorem dropWhile_headNotWs (l : List Char) : HeadNotWs (l.dropWhile isPyWs) := by
  induction l with
  | nil => trivial
  | cons c cs ih =>
    rw [List.dropWhile_cons]
    by_cases h : isPyWs c = true
    · rw [if_pos h]; exact ih
    · rw [if_neg h]
      simp only [Bool.not_eq_true] at h
      exact h

theorem dropWhile_eq_self_of_headNotWs (l : List Char) (h : HeadNotWs l) :
    l.dropWhile isPyWs = l := by
  cases l with
  | nil => rfl
  | cons c cs =>
    have hc : isPyWs c = false := h
    rw [List.dropWhile_cons, if_neg (by simp [hc])]

theorem dropTrailingWs_append (l : List Char) : ∃ s, l = dropTrailingWs l ++ s := by
  obtain ⟨t, ht⟩ := List.dropWhile_suffix (l := l.reverse) (p := isPyWs)
  refine ⟨t.reverse, ?_⟩
  have hrev := congrArg List.reverse ht
  simpa [List.reverse_append, dropTrailingWs] using hrev.symm

theorem headNotWs_dropTrailingWs (l : List Char) (h : HeadNotWs l) :
    HeadNotWs (dropTrailingWs l) := by
  obtain ⟨s, hs⟩ := dropTrailingWs_append l
  cases hd : dropTrailingWs l with
  | nil => trivial
  | cons c cs =>
    rw [hd] at hs
    cases l with
    | nil => simp at hs
    | cons c0 cs0 =>
      have hc : c0 = c := by
        have := hs
        simp only [List.cons_append] at this
        exact (List.cons.injEq _ _ _ _ ▸ this).1
      have h0 : isPyWs c0 = false := h
      show isPyWs c = false
      rw [← hc]
      exact h0

theorem dropTrailingWs_eq_self (l : List Char) (h : HeadNotWs l.reverse) :
    dropTrailingWs l = l := by
  unfold dropTrailingWs
  rw [dropWhile_eq_self_of_headNotWs _ h, List.reverse_reverse]

theorem pyStrip_last_not_ws (l : List Char) : HeadNotWs (pyStrip l).reverse := by
  unfold pyStrip dropTrailingWs
  rw [List.reverse_reverse]
  exact dropWhile_headNotWs _

theorem pyStrip_fix (l : List Char) (h1 : HeadNotWs l) (h2 : HeadNotWs l.reverse) :
    pyStrip l = l := by
  unfold pyStrip
  rw [dropWhile_eq_self_of_headNotWs l h1, dropTrailingWs_eq_self l h2]

theorem collapsedP_pyStrip (l : List Char) (h : CollapsedP l) :
    CollapsedP (pyStrip l) := by
  obtain ⟨hmem, hchain⟩ := h
  constructor
  · intro c hc hws
    obtain ⟨s, hs⟩ := dropTrailingWs_append (l.dropWhile isPyWs)
    have h1 : c ∈ l.dropWhile isPyWs := by
      rw [hs]; exact List.mem_append_left _ hc
    have h2 : c ∈ l := by
      conv at h1 in l.dropWhile isPyWs => skip
      have := List.takeWhile_append_dropWhile (p := isPyWs) (l := l)
      rw [← this]
      exact List.mem_append_right _ h1
    exact hmem c h2 hws
  · have hchain1 :
        List.Chain' (fun a b => ¬(isPyWs a = true ∧ isPyWs b = true))
          (l.dropWhile isPyWs) := by
      have heq := List.takeWhile_append_dropWhile (p := isPyWs) (l := l)
      exact List.Chain'.right_of_append (heq ▸ hchain)
    obtain ⟨s, hs⟩ := dropTrailingWs_append (l.dropWhile isPyWs)
    exact List.Chain'.left_of_append (hs ▸ hchain1)

/-! ## Override and non-emptiness lemmas for every section builder -/

section C10Helpers
variable (sentTok : String → List String) (today dt : String) (ba : BriefAnalysis)
variable (ls : List LawSection) (ch : List CaseHistory) (analysis : AnalysisOutput)
variable (ent : AgentEntities) (info : Info)

set_option maxRecDepth 8192 in
theorem ovr_title :
    CaseFileDraftingAgent.generate_title dt ba ent (infoSet info "title" "") =
      CaseFileDraftingAgent.generate_title dt ba ent (infoDel info "title") := by
  simp [CaseFileDraftingAgent.generate_title, infoGetTruthy, infoSet, infoDel]

theorem ne_title : CaseFileDraftingAgent.generate_title dt ba ent info ≠ "" := by
  unfold CaseFileDraftingAgent.generate_title
  cases h : infoGetTruthy info "title" with
  | some v =>
    simp only [h]
    exact infoGetTruthy_some_ne_empty _ _ h
  | none =>
    simp only [h]
    first
      | (split_ifs <;> first | decide | ((repeat (apply append_ne_left)); decide))
      | decide
      | ((repeat (apply append_ne_left)); decide)

set_option maxRecDepth 8192 in
theorem ovr_parties :
    CaseFileDraftingAgent.generate_parties_section dt ent (infoSet info "parties" "") =
      CaseFileDraftingAgent.generate_parties_section dt ent (infoDel info "parties") := by
  simp [CaseFileDraftingAgent.generate_parties_section, infoGetTruthy, infoSet, infoDel]

set_option maxRecDepth 8192 in
theorem ovr_jurisdiction :
    CaseFileDraftingAgent.generate_jurisdiction_section ba ent (infoSet info "jurisdiction" "") =
      CaseFileDraftingAgent.generate_jurisdiction_section ba ent (infoDel info "jurisdiction") := by
  simp [CaseFileDraftingAgent.generate_jurisdiction_section, infoGetTruthy, infoSet, infoDel]

theorem ne_jurisdiction : CaseFileDraftingAgent.generate_jurisdiction_section ba ent info ≠ "" := by
  unfold CaseFileDraftingAgent.generate_jurisdiction_section
  cases h : infoGetTruthy info "jurisdiction" with
  | some v =>
    simp only [h]
    exact infoGetTruthy_some_ne_empty _ _ h
  | none =>
    simp only [h]
    first
      | (split_ifs <;> first | decide | ((repeat (apply append_ne_left)); decide))
      | decide
      | ((repeat (apply append_ne_left)); decide)

set_option maxRecDepth 8192 in
theorem ovr_facts :
    CaseFileDraftingAgent.generate_facts_section sentTok dt ba ent (infoSet info "facts" "") =
      CaseFileDraftingAgent.generate_facts_section sentTok dt ba ent (infoDel info "facts") := by
  simp [CaseFileDraftingAgent.generate_facts_section, infoGetTruthy, infoSet, infoDel]

theorem ne_facts : CaseFileDraftingAgent.generate_facts_section sentTok dt ba ent info ≠ "" := by
  unfold CaseFileDraftingAgent.generate_facts_section
  cases h : infoGetTruthy info "facts" with
  | some v =>
    simp only [h]
    exact infoGetTruthy_some_ne_empty _ _ h
  | none =>
    simp only [h]
    first
      | (split_ifs <;> first | decide | ((repeat (apply append_ne_left)); decide))
      | decide
      | ((repeat (apply append_ne_left)); decide)

set_option maxRecDepth 8192 in
theorem ovr_legal_provisions :
    CaseFileDraftingAgent.generate_legal_provisions_section ls (infoSet info "legal_provisions" "") =
      CaseFileDraftingAgent.generate_legal_provisions_section ls (infoDel info "legal_provisions") := by
  simp [CaseFileDraftingAgent.generate_legal_provisions_section, infoGetTruthy, infoSet, infoDel]

theorem ne_legal_provisions : CaseFileDraftingAgent.generate_legal_provisions_section ls info ≠ "" := by
  unfold CaseFileDraftingAgent.generate_legal_provisions_section
  cases h : infoGetTruthy info "legal_provisions" with
  | some v =>
    simp only [h]
    exact infoGetTruthy_some_ne_empty _ _ h
  | none =>
    simp only [h]
    first
      | (split_ifs <;> first | decide | ((repeat (apply append_ne_left)); decide))
      | decide
      | ((repeat (apply append_ne_left)); decide)

set_option maxRecDepth 8192 in
theorem ovr_grounds :
    CaseFileDraftingAgent.generate_grounds_section analysis ls ch (infoSet info "grounds" "") =
      CaseFileDraftingAgent.generate_grounds_section analysis ls ch (infoDel info "grounds") := by
  simp [CaseFileDraftingAgent.generate_grounds_section, infoGetTruthy, infoSet, infoDel]

theorem ne_grounds : CaseFileDraftingAgent.generate_grounds_section analysis ls ch info ≠ "" := by
  unfold CaseFileDraftingAgent.generate_grounds_section
  cases h : infoGetTruthy info "grounds" with
  | some v =>
    simp only [h]
    exact infoGetTruthy_some_ne_empty _ _ h
  | none =>
    simp only [h]
    first
      | (split_ifs <;> first | decide | ((repeat (apply append_ne_left)); decide))
      | decide
      | ((repeat (apply append_ne_left)); decide)

set_option maxRecDepth 8192 in
theorem ovr_prayer :
    CaseFileDraftingAgent.generate_prayer_section dt analysis ba (infoSet info "prayer" "") =
      CaseFileDraftingAgent.generate_prayer_section dt analysis ba (infoDel info "prayer") := by
  simp [CaseFileDraftingAgent.generate_prayer_section, infoGetTruthy, infoSet, infoDel]

theorem ne_prayer : CaseFileDraftingAgent.generate_prayer_section dt analysis ba info ≠ "" := by
  unfold CaseFileDraftingAgent.generate_prayer_section
  cases h : infoGetTruthy info "prayer" with
  | some v =>
    simp only [h]
    exact infoGetTruthy_some_ne_empty _ _ h
  | none =>
    simp only [h]
    first
      | (split_ifs <;> first | decide | ((repeat (apply append_ne_left)); decide))
      | decide
      | ((repeat (apply append_ne_left)); decide)

set_option maxRecDepth 8192 in
theorem ovr_preliminary_objections :
    CaseFileDraftingAgent.generate_preliminary_objections analysis (infoSet info "preliminary_objections" "") =
      CaseFileDraftingAgent.generate_preliminary_objections analysis (infoDel info "preliminary_objections") := by
  simp [CaseFileDraftingAgent.generate_preliminary_objections, infoGetTruthy, infoSet, infoDel]

theorem ne_preliminary_objections : CaseFileDraftingAgent.generate_preliminary_objections analysis info ≠ "" := by
  unfold CaseFileDraftingAgent.generate_preliminary_objections
  cases h : infoGetTruthy info "preliminary_objections" with
  | some v =>
    simp only [h]
    exact infoGetTruthy_some_ne_empty _ _ h
  | none =>
    simp only [h]
    first
      | (split_ifs <;> first | decide | ((repeat (apply append_ne_left)); decide))
      | decide
      | ((repeat (apply append_ne_left)); decide)

set_option maxRecDepth 8192 in
theorem ovr_facts_rebuttal :
    CaseFileDraftingAgent.generate_facts_rebuttal ba (infoSet info "facts_rebuttal" "") =
      CaseFileDraftingAgent.generate_facts_rebuttal ba (infoDel info "facts_rebuttal") := by
  simp [CaseFileDraftingAgent.generate_facts_rebuttal, infoGetTruthy, infoSet, infoDel]

theorem ne_facts_rebuttal : CaseFileDraftingAgent.generate_facts_rebuttal ba info ≠ "" := by
  unfold CaseFileDraftingAgent.generate_facts_rebuttal
  cases h : infoGetTruthy info "facts_rebuttal" with
  | some v =>
    simp only [h]
    exact infoGetTruthy_some_ne_empty _ _ h
  | none =>
    simp only [h]
    first
      | (split_ifs <;> first | decide | ((repeat (apply append_ne_left)); decide))
      | decide
      | ((repeat (apply append_ne_left)); decide)

set_option maxRecDepth 8192 in
theorem ovr_legal_arguments :
    CaseFileDraftingAgent.generate_legal_arguments analysis ls ch (infoSet info "legal_arguments" "") =
      CaseFileDraftingAgent.generate_legal_arguments analysis ls ch (infoDel info "legal_arguments") := by
  simp [CaseFileDraftingAgent.generate_legal_arguments, infoGetTruthy, infoSet, infoDel]

theorem ne_legal_arguments : CaseFileDraftingAgent.generate_legal_arguments analysis ls ch info ≠ "" := by
  unfold CaseFileDraftingAgent.generate_legal_arguments
  cases h : infoGetTruthy info "legal_arguments" with
  | some v =>
    simp only [h]
    exact infoGetTruthy_some_ne_empty _ _ h
  | none =>
    simp only [h]
    first
      | (split_ifs <;> first | decide | ((repeat (apply append_ne_left)); decide))
      | decide
      | ((repeat (apply append_ne_left)); decide)

set_option maxRecDepth 8192 in
theorem ovr_rebuttal_to_reply :
    CaseFileDraftingAgent.generate_rebuttal_to_reply analysis (infoSet info "rebuttal_to_reply" "") =
      CaseFileDraftingAgent.generate_rebuttal_to_reply analysis (infoDel info "rebuttal_to_reply") := by
  simp [CaseFileDraftingAgent.generate_rebuttal_to_reply, infoGetTruthy, infoSet, infoDel]

theorem ne_rebuttal_to_reply : CaseFileDraftingAgent.generate_rebuttal_to_reply analysis info ≠ "" := by
  unfold CaseFileDraftingAgent.generate_rebuttal_to_reply
  cases h : infoGetTruthy info "rebuttal_to_reply" with
  | some v =>
    simp only [h]
    exact infoGetTruthy_some_ne_empty _ _ h
  | none =>
    simp only [h]
    first
      | (split_ifs <;> first | decide | ((repeat (apply append_ne_left)); decide))
      | decide
      | ((repeat (apply append_ne_left)); decide)

set_option maxRecDepth 8192 in
theorem ovr_additional_facts :
    CaseFileDraftingAgent.generate_additional_facts ba (infoSet info "additional_facts" "") =
      CaseFileDraftingAgent.generate_additional_facts ba (infoDel info "additional_facts") := by
  simp [CaseFileDraftingAgent.generate_additional_facts, infoGetTruthy, infoSet, infoDel]

theorem ne_additional_facts : CaseFileDraftingAgent.generate_additional_facts ba info ≠ "" := by
  unfold CaseFileDraftingAgent.generate_additional_facts
  cases h : infoGetTruthy info "additional_facts" with
  | some v =>
    simp only [h]
    exact infoGetTruthy_some_ne_empty _ _ h
  | none =>
    simp only [h]
    first
      | (split_ifs <;> first | decide | ((repeat (apply append_ne_left)); decide))
      | decide
      | ((repeat (apply append_ne_left)); decide)

set_option maxRecDepth 8192 in
theorem ovr_deponent_details :
    CaseFileDraftingAgent.generate_deponent_details ent (infoSet info "deponent_details" "") =
      CaseFileDraftingAgent.generate_deponent_details ent (infoDel info "deponent_details") := by
  simp [CaseFileDraftingAgent.generate_deponent_details, infoGetTruthy, infoSet, infoDel]

theorem ne_deponent_details : CaseFileDraftingAgent.generate_deponent_details ent info ≠ "" := by
  unfold CaseFileDraftingAgent.generate_deponent_details
  cases h : infoGetTruthy info "deponent_details" with
  | some v =>
    simp only [h]
    exact infoGetTruthy_some_ne_empty _ _ h
  | none =>
    simp only [h]
    first
      | (split_ifs <;> first | decide | ((repeat (apply append_ne_left)); decide))
      | decide
      | ((repeat (apply append_ne_left)); decide)

set_option maxRecDepth 8192 in
theorem ovr_statements :
    CaseFileDraftingAgent.generate_affidavit_statements sentTok ba (infoSet info "statements" "") =
      CaseFileDraftingAgent.generate_affidavit_statements sentTok ba (infoDel info "statements") := by
  simp [CaseFileDraftingAgent.generate_affidavit_statements, infoGetTruthy, infoSet, infoDel]

set_option maxRecDepth 8192 in
theorem ovr_declaration :
    CaseFileDraftingAgent.generate_affidavit_declaration (infoSet info "declaration" "") =
      CaseFileDraftingAgent.generate_affidavit_declaration (infoDel info "declaration") := by
  simp [CaseFileDraftingAgent.generate_affidavit_declaration, infoGetTruthy, infoSet, infoDel]

theorem ne_declaration : CaseFileDraftingAgent.generate_affidavit_declaration info ≠ "" := by
  unfold CaseFileDraftingAgent.generate_affidavit_declaration
  cases h : infoGetTruthy info "declaration" with
  | some v =>
    simp only [h]
    exact infoGetTruthy_some_ne_empty _ _ h
  | none =>
    simp only [h]
    first
      | (split_ifs <;> first | decide | ((repeat (apply append_ne_left)); decide))
      | decide
      | ((repeat (apply append_ne_left)); decide)

set_option maxRecDepth 8192 in
theorem ovr_attestation :
    CaseFileDraftingAgent.generate_attestation today (infoSet info "attestation" "") =
      CaseFileDraftingAgent.generate_attestation today (infoDel info "attestation") := by
  simp [CaseFileDraftingAgent.generate_attestation, infoGetTruthy, infoSet, infoDel]

theorem ne_attestation : CaseFileDraftingAgent.generate_attestation today info ≠ "" := by
  unfold CaseFileDraftingAgent.generate_attestation
  cases h : infoGetTruthy info "attestation" with
  | some v =>
    simp only [h]
    exact infoGetTruthy_some_ne_empty _ _ h
  | none =>
    simp only [h]
    first
      | (split_ifs <;> first | decide | ((repeat (apply append_ne_left)); decide))
      | decide
      | ((repeat (apply append_ne_left)); decide)

set_option maxRecDepth 8192 in
theorem ovr_sender_details :
    CaseFileDraftingAgent.generate_sender_details ent (infoSet info "sender_details" "") =
      CaseFileDraftingAgent.generate_sender_details ent (infoDel info "sender_details") := by
  simp [CaseFileDraftingAgent.generate_sender_details, infoGetTruthy, infoSet, infoDel]

theorem ne_sender_details : CaseFileDraftingAgent.generate_sender_details ent info ≠ "" := by
  unfold CaseFileDraftingAgent.generate_sender_details
  cases h : infoGetTruthy info "sender_details" with
  | some v =>
    simp only [h]
    exact infoGetTruthy_some_ne_empty _ _ h
  | none =>
    simp only [h]
    first
      | (split_ifs <;> first | decide | ((repeat (apply append_ne_left)); decide))
      | decide
      | ((repeat (apply append_ne_left)); decide)

set_option maxRecDepth 8192 in
theorem ovr_recipient_details :
    CaseFileDraftingAgent.generate_recipient_details ent (infoSet info "recipient_details" "") =
      CaseFileDraftingAgent.generate_recipient_details ent (infoDel info "recipient_details") := by
  simp [CaseFileDraftingAgent.generate_recipient_details, infoGetTruthy, infoSet, infoDel]

theorem ne_recipient_details : CaseFileDraftingAgent.generate_recipient_details ent info ≠ "" := by
  unfold CaseFileDraftingAgent.generate_recipient_details
  cases h : infoGetTruthy info "recipient_details" with
  | some v =>
    simp only [h]
    exact infoGetTruthy_some_ne_empty _ _ h
  | none =>
    simp only [h]
    first
      | (split_ifs <;> first | decide | ((repeat (apply append_ne_left)); decide))
      | decide
      | ((repeat (apply append_ne_left)); decide)

set_option maxRecDepth 8192 in
theorem ovr_subject :
    CaseFileDraftingAgent.generate_notice_subject ba (infoSet info "subject" "") =
      CaseFileDraftingAgent.generate_notice_subject ba (infoDel info "subject") := by
  simp [CaseFileDraftingAgent.generate_notice_subject, infoGetTruthy, infoSet, infoDel]

theorem ne_subject : CaseFileDraftingAgent.generate_notice_subject ba info ≠ "" := by
  unfold CaseFileDraftingAgent.generate_notice_subject
  cases h : infoGetTruthy info "subject" with
  | some v =>
    simp only [h]
    exact infoGetTruthy_some_ne_empty _ _ h
  | none =>
    simp only [h]
    first
      | (split_ifs <;> first | decide | ((repeat (apply append_ne_left)); decide))
      | decide
      | ((repeat (apply append_ne_left)); decide)

set_option maxRecDepth 8192 in
theorem ovr_demand :
    CaseFileDraftingAgent.generate_notice_demand analysis (infoSet info "demand" "") =
      CaseFileDraftingAgent.generate_notice_demand analysis (infoDel info "demand") := by
  simp [CaseFileDraftingAgent.generate_notice_demand, infoGetTruthy, infoSet, infoDel]

theorem ne_demand : CaseFileDraftingAgent.generate_notice_demand analysis info ≠ "" := by
  unfold CaseFileDraftingAgent.generate_notice_demand
  cases h : infoGetTruthy info "demand" with
  | some v =>
    simp only [h]
    exact infoGetTruthy_some_ne_empty _ _ h
  | none =>
    simp only [h]
    first
      | (split_ifs <;> first | decide | ((repeat (apply append_ne_left)); decide))
      | decide
      | ((repeat (apply append_ne_left)); decide)

set_option maxRecDepth 8192 in
theorem ovr_timeline :
    CaseFileDraftingAgent.generate_notice_timeline (infoSet info "timeline" "") =
      CaseFileDraftingAgent.generate_notice_timeline (infoDel info "timeline") := by
  simp [CaseFileDraftingAgent.generate_notice_timeline, infoGetTruthy, infoSet, infoDel]

theorem ne_timeline : CaseFileDraftingAgent.generate_notice_timeline info ≠ "" := by
  unfold CaseFileDraftingAgent.generate_notice_timeline
  cases h : infoGetTruthy info "timeline" with
  | some v =>
    simp only [h]
    exact infoGetTruthy_some_ne_empty _ _ h
  | none =>
    simp only [h]
    first
      | (split_ifs <;> first | decide | ((repeat (apply append_ne_left)); decide))
      | decide
      | ((repeat (apply append_ne_left)); decide)

set_option maxRecDepth 8192 in
theorem ovr_consequences :
    CaseFileDraftingAgent.generate_notice_consequences ls (infoSet info "consequences" "") =
      CaseFileDraftingAgent.generate_notice_consequences ls (infoDel info "consequences") := by
  simp [CaseFileDraftingAgent.generate_notice_consequences, infoGetTruthy, infoSet, infoDel]

theorem ne_consequences : CaseFileDraftingAgent.generate_notice_consequences ls info ≠ "" := by
  unfold CaseFileDraftingAgent.generate_notice_consequences
  cases h : infoGetTruthy info "consequences" with
  | some v =>
    simp only [h]
    exact infoGetTruthy_some_ne_empty _ _ h
  | none =>
    simp only [h]
    first
      | (split_ifs <;> first | decide | ((repeat (apply append_ne_left)); decide))
      | decide
      | ((repeat (apply append_ne_left)); decide)

theorem ne_parties : CaseFileDraftingAgent.generate_parties_section dt ent info ≠ "" := by
  unfold CaseFileDraftingAgent.generate_parties_section
  cases h : infoGetTruthy info "parties" with
  | some v =>
    simp only [h]
    exact infoGetTruthy_some_ne_empty _ _ h
  | none =>
    simp only [h]
    cases hp : (pyOr ent.potential_parties.petitioners ent.potential_parties.plaintiffs).head? with
    | some p =>
      simp only [hp]
      split_ifs <;> ((repeat (apply append_ne_left)); decide)
    | none =>
      simp only [hp]
      (repeat (apply append_ne_left)); decide

theorem ne_statements :
    CaseFileDraftingAgent.generate_affidavit_statements sentTok ba info ≠ "" := by
  unfold CaseFileDraftingAgent.generate_affidavit_statements
  cases h : infoGetTruthy info "statements" with
  | some v =>
    simp only [h]
    exact infoGetTruthy_some_ne_empty _ _ h
  | none =>
    simp only [h]
    apply append_ne_right
    apply append_ne_right
    decide

set_option maxRecDepth 8192 in
theorem ovr_verification :
    CaseFileDraftingAgent.generate_verification_section today dt ent
        (infoSet info "verification" "") =
      CaseFileDraftingAgent.generate_verification_section today dt ent
        (infoDel info "verification") := by
  simp [CaseFileDraftingAgent.generate_verification_section, infoGetTruthy, infoSet, infoDel]

theorem ne_verification (s : String)
    (h : CaseFileDraftingAgent.generate_verification_section today dt ent info =
      Except.ok s) : s ≠ "" := by
  unfold CaseFileDraftingAgent.generate_verification_section at h
  cases hg : infoGetTruthy info "verification" with
  | some v =>
    rw [hg] at h
    simp only [Except.ok.injEq] at h
    rw [← h]
    exact infoGetTruthy_some_ne_empty _ _ hg
  | none =>
    simp only [hg] at h
    split_ifs at h
    · cases hp : ent.potential_parties.petitioners.head? with
      | some w =>
        simp only [hp, Except.ok.injEq] at h
        rw [← h]
        (repeat (apply append_ne_left)); decide
      | none =>
        simp only [hp] at h
        exact Except.noConfusion h
    · cases hp : ent.potential_parties.respondents.head? with
      | some w =>
        simp only [hp, Except.ok.injEq] at h
        rw [← h]
        (repeat (apply append_ne_left)); decide
      | none =>
        simp only [hp] at h
        exact Except.noConfusion h
    · simp only [Except.ok.injEq] at h
      rw [← h]
      (repeat (apply append_ne_left)); decide

end C10Helpers

/-! ## Claim checks -/

/-- Counterexample to C1 as stated: the API-level drafter, asked for the
unsupported document type `summons`, silently produces a petition-shaped
document (with the unknown type echoed in its `document_type` field) instead
of raising a validation error. -/
theorem C1_counterexample :
    (CaseFileDrafter.draft_case_file exApiParties [] exApiAnalysisEmpty
        exSummonsOptions "01/01/2026" "2026-01-01T00:00:00" "1st"
        "January, 2026").title =
      "PETITION - The Petitioner vs. The Respondent" ∧
    (CaseFileDrafter.draft_case_file exApiParties [] exApiAnalysisEmpty
        exSummonsOptions "01/01/2026" "2026-01-01T00:00:00" "1st"
        "January, 2026").document_type = "summons" := by
  constructor <;> rfl

/-- Claim C1, amended: the drafting agent's `draft_case_file` rejects every
document type outside its six-template catalog with the validation error
`Unsupported document type: X` and produces no document; the API-level
`CaseFileDrafter.draft_case_file`, by contrast, falls back to drafting a
petition whenever the (lowercased) requested type matches none of its six
branches. -/
theorem C1_unsupported_type (sentTokenize : String → List String)
    (now_iso today dt : String) (ba : BriefAnalysis) (ls : List LawSection)
    (ch : List CaseHistory) (analysis : AnalysisOutput) (brief : String)
    (ent : AgentEntities) (info : Info) (parties : ApiParties)
    (facts : List String) (ar : ApiAnalysisResults) (court : Option String)
    (ia ip : Option Bool) (t1 t2 t3 t4 : String)
    (hdt : dt ∉ CaseFileDraftingAgent.templateNames) :
    CaseFileDraftingAgent.draft_case_file sentTokenize now_iso today dt ba ls ch
        analysis brief ent info =
      Except.error ("Unsupported document type: " ++ dt) ∧
    (pyLower dt ∉ CaseFileDraftingAgent.templateNames →
      (CaseFileDrafter.draft_case_file parties facts ar
          { document_type := some dt, court := court, include_arguments := ia,
            include_prayer := ip } t1 t2 t3 t4).title =
        "PETITION - " ++ parties.petitioner ++ " vs. " ++ parties.respondent) := by
  constructor
  · simp only [CaseFileDraftingAgent.draft_case_file, if_pos hdt]
  · intro h
    have h1 : pyLower dt ≠ "petition" := fun hc => h (by rw [hc]; decide)
    have h2 : pyLower dt ≠ "reply" := fun hc => h (by rw [hc]; decide)
    have h3 : pyLower dt ≠ "rejoinder" := fun hc => h (by rw [hc]; decide)
    have h4 : pyLower dt ≠ "written_statement" := fun hc => h (by rw [hc]; decide)
    have h5 : pyLower dt ≠ "legal_notice" := fun hc => h (by rw [hc]; decide)
    have h6 : pyLower dt ≠ "affidavit" := fun hc => h (by rw [hc]; decide)
    simp [CaseFileDrafter.draft_case_file, h1, h2, h3, h4, h5, h6]

/-- Witness for C1 at the spec's own scenario, `document_type = "summons"`. -/
theorem C1_witness :
    CaseFileDraftingAgent.draft_case_file exSentTok "2026-01-01T00:00:00"
        "01/01/2026" "summons" exBAEmpty [] [] exAnalysisEmpty "" exEntitiesEmpty
        emptyInfo =
      Except.error ("Unsupported document type: " ++ "summons") ∧
    (CaseFileDrafter.draft_case_file exApiParties [] exApiAnalysisEmpty
        { document_type := some "summons", court := none, include_arguments := none,
          include_prayer := none } "01/01/2026" "2026-01-01T00:00:00" "1st"
        "January, 2026").title =
      "PETITION - " ++ exApiParties.petitioner ++ " vs. " ++
        exApiParties.respondent := by
  obtain ⟨ha, hb⟩ := C1_unsupported_type exSentTok "2026-01-01T00:00:00"
    "01/01/2026" "summons" exBAEmpty [] [] exAnalysisEmpty "" exEntitiesEmpty
    emptyInfo exApiParties [] exApiAnalysisEmpty none none none "01/01/2026"
    "2026-01-01T00:00:00" "1st" "January, 2026" (by decide)
  exact ⟨ha, hb (by decide)⟩

/-- Claim C2: over all connector outcomes, the aggregated law-section list has
pairwise-distinct `(title, sectionNumber)` keys and the case-history list has
pairwise-distinct citations, and every returned record has maximal relevance
among the collected input records that share its key. -/

theorem C2_dedup_invariant (crsL : List (Except String (List LawSection)))
    (crsC : List (Except String (List CaseHistory))) :
    ((LegalDataAggregator.search_law_sections crsL).map lawKey).Nodup ∧
    (∀ r ∈ LegalDataAggregator.search_law_sections crsL,
      ∀ x ∈ collectOks crsL, lawKey x = lawKey r → x.relevance ≤ r.relevance) ∧
    ((LegalDataAggregator.search_case_history crsC).map caseKey).Nodup ∧
    (∀ r ∈ LegalDataAggregator.search_case_history crsC,
      ∀ x ∈ collectOks crsC, caseKey x = caseKey r → x.relevance ≤ r.relevance) := by
  refine ⟨?_, ?_, ?_, ?_⟩
  · have hperm := sortByRelevanceDesc_perm (fun r : LawSection => r.relevance)
      (dedupByKey lawKey (fun r => r.relevance) (collectOks crsL))
    exact ((hperm.map lawKey).nodup_iff).mpr
      (dedupByKey_nodup_keys lawKey (fun r => r.relevance) (collectOks crsL))
  · intro r hr x hx hk
    have hperm := sortByRelevanceDesc_perm (fun r : LawSection => r.relevance)
      (dedupByKey lawKey (fun r => r.relevance) (collectOks crsL))
    exact dedupByKey_dominates lawKey (fun r => r.relevance) (collectOks crsL) r
      (hperm.mem_iff.mp hr) x hx hk
  · have hperm := sortByRelevanceDesc_perm (fun r : CaseHistory => r.relevance)
      (dedupByKey caseKey (fun r => r.relevance) (collectOks crsC))
    exact ((hperm.map caseKey).nodup_iff).mpr
      (dedupByKey_nodup_keys caseKey (fun r => r.relevance) (collectOks crsC))
  · intro r hr x hx hk
    have hperm := sortByRelevanceDesc_perm (fun r : CaseHistory => r.relevance)
      (dedupByKey caseKey (fun r => r.relevance) (collectOks crsC))
    exact dedupByKey_dominates caseKey (fun r => r.relevance) (collectOks crsC) r
      (hperm.mem_iff.mp hr) x hx hk

theorem C2_witness :
    exLawLow.relevance ≤ exLawHigh.relevance ∧
    exCaseLow.relevance ≤ exCaseHigh.relevance :=
  ⟨(C2_dedup_invariant exCrsL exCrsC).2.1 exLawHigh (by decide) exLawLow (by decide) (by decide),
   (C2_dedup_invariant exCrsL exCrsC).2.2.2 exCaseHigh (by decide) exCaseLow (by decide) (by decide)⟩

/-- Claim C3: connector outcomes that raised are simply skipped — the result
is a function of the successful outcomes alone; when every connector fails
both searches return the empty list; and the returned lists are
relevance-sorted in descending order. -/

theorem C3_partial_failure (crsL : List (Except String (List LawSection)))
    (crsC : List (Except String (List CaseHistory))) :
    (LegalDataAggregator.search_law_sections (crsL.filter Except.isOk) =
      LegalDataAggregator.search_law_sections crsL) ∧
    ((∀ c ∈ crsL, c.isOk = false) → LegalDataAggregator.search_law_sections crsL = []) ∧
    (LegalDataAggregator.search_law_sections crsL).Sorted
      (fun a b => b.relevance ≤ a.relevance) ∧
    (LegalDataAggregator.search_case_history (crsC.filter Except.isOk) =
      LegalDataAggregator.search_case_history crsC) ∧
    ((∀ c ∈ crsC, c.isOk = false) → LegalDataAggregator.search_case_history crsC = []) ∧
    (LegalDataAggregator.search_case_history crsC).Sorted
      (fun a b => b.relevance ≤ a.relevance) := by
  refine ⟨?_, ?_, ?_, ?_, ?_, ?_⟩
  · simp only [LegalDataAggregator.search_law_sections, collectOks_filter_isOk]
  · intro h
    simp only [LegalDataAggregator.search_law_sections, collectOks_all_error crsL h]
    rfl
  · exact sortByRelevanceDesc_sorted (fun r : LawSection => r.relevance) _
  · simp only [LegalDataAggregator.search_case_history, collectOks_filter_isOk]
  · intro h
    simp only [LegalDataAggregator.search_case_history, collectOks_all_error crsC h]
    rfl
  · exact sortByRelevanceDesc_sorted (fun r : CaseHistory => r.relevance) _

/-- Witness for C3: both searches return `[]` when every connector raised. -/

theorem C3_witness :
    LegalDataAggregator.search_law_sections exCrsLFail = [] ∧
    LegalDataAggregator.search_case_history exCrsCFail = [] :=
  ⟨(C3_partial_failure exCrsLFail exCrsCFail).2.1 (by decide),
   (C3_partial_failure exCrsLFail exCrsCFail).2.2.2.2.1 (by decide)⟩

/-- Claim C4: for all inputs — including empty law-section and case-history
lists — the analysis generator pads `arguments` to at least 3 (at most 5),
`challenges` to at least 3 (at most 4), and `recommendations` to at least 4
(at most 5). -/
theorem C4_padding_bounds (ba : BriefAnalysis) (ls : List LawSection)
    (ch : List CaseHistory) :
    3 ≤ (LegalAnalysisGenerator.generate_arguments ba ls ch).length ∧
    (LegalAnalysisGenerator.generate_arguments ba ls ch).length ≤ 5 ∧
    3 ≤ (LegalAnalysisGenerator.generate_challenges ba ls ch).length ∧
    (LegalAnalysisGenerator.generate_challenges ba ls ch).length ≤ 4 ∧
    4 ≤ (LegalAnalysisGenerator.generate_recommendations ba ls ch).length ∧
    (LegalAnalysisGenerator.generate_recommendations ba ls ch).length ≤ 5 := by
  refine ⟨?_, ?_, ?_, ?_, ?_, ?_⟩
  · simp only [LegalAnalysisGenerator.generate_arguments, genericArguments]
    split_ifs <;>
      simp_all [List.length_take, List.length_append, List.length_map] <;> omega
  · simp only [LegalAnalysisGenerator.generate_arguments, genericArguments]
    split_ifs <;>
      simp_all [List.length_take, List.length_append, List.length_map] <;> omega
  · simp only [LegalAnalysisGenerator.generate_challenges, genericChallenges]
    split_ifs <;>
      simp_all [List.length_take, List.length_append, List.length_map] <;> omega
  · simp only [LegalAnalysisGenerator.generate_challenges, genericChallenges]
    split_ifs <;>
      simp_all [List.length_take, List.length_append, List.length_map] <;> omega
  · cases ch <;>
      (simp only [LegalAnalysisGenerator.generate_recommendations,
        genericRecommendations]
       split_ifs <;>
         simp_all [List.length_take, List.length_append, List.length_map] <;> omega)
  · cases ch <;>
      (simp only [LegalAnalysisGenerator.generate_recommendations,
        genericRecommendations]
       split_ifs <;>
         simp_all [List.length_take, List.length_append, List.length_map] <;> omega)

/-- Claim C5, code-level evidence: the `written_statement` schema names a
`defense_arguments` section, but the builder dispatch assigns only the keys
it knows (`facts_rebuttal`, `legal_arguments`, …), so on ordinary inputs the
generated sections map `defense_arguments` to the empty string — contradicting
the claim that every schema section is mapped to non-empty text. -/

theorem C5_defense_arguments :
    "defense_arguments" ∈ CaseFileDraftingAgent.document_structures "written_statement" ∧
    (CaseFileDraftingAgent.generate_document_sections exSentTok "05/10/2026"
        "written_statement" exBAws [] [] exAnalysisWS exEntitiesWS emptyInfo).map
      (fun secs => secs.lookup "defense_arguments") = Except.ok (some "") := by
  constructor
  · decide
  · rfl

/-- Claim C6, code-level evidence: the AIR pattern requires the four-digit
year to precede the literal `AIR`, so the spec's own scenario text
`AIR 2017 SC 567` yields no citation at all, while the transposed text
`2017 AIR 567` is what actually produces the `{AIR, 2017, 567}` entry. -/
theorem C6_citation_regex :
    pyIn "AIR 2017 SC 567" "The ruling in AIR 2017 SC 567 was cited." = true ∧
    LegalBriefAnalyzer.extract_citations
      "The ruling in AIR 2017 SC 567 was cited." = [] ∧
    LegalBriefAnalyzer.extract_citations "2017 AIR 567" =
      [{ ctype := CitationType.AIR, year := "2017", volume := none,
         page := "567" }] := by
  refine ⟨by decide, by decide, by decide⟩

/-- Counterexample to C7 as stated: with eleven distinct act/section pairs
the literal act/section queries alone outnumber the cap of ten, so the
returned queries cannot contain them all — some literal act/section query is
dropped by the cap.  Both conjuncts are order-insensitive: the candidate pool
here holds sixteen pairwise-distinct strings, so the slice of the
deduplicated pool has exactly ten elements and misses at least one of the
eleven act/section queries in every possible iteration order of the
source\x27s `set`, contradicting "they … are never dropped by the cap". -/
theorem C7_counterexample :
    (LegalBriefAnalyzer.generate_search_queries [] exNounChunks
      exEmptyEntityMap exActsEleven []).length = 10 ∧
    ¬ ∀ a ∈ exActsEleven, (a.act ++ " section " ++ a.sec) ∈
        LegalBriefAnalyzer.generate_search_queries [] exNounChunks
          exEmptyEntityMap exActsEleven [] := by
  refine ⟨by decide, by decide⟩

/-- Claim C7, amended: the query generator returns at most 10
pairwise-distinct query strings; but no candidate class is protected from the
cap — the source deduplicates through a `set` whose iteration order is
unspecified, and whenever the distinct literal act/section query strings
alone number more than ten, at least one act/section query is missing from
the returned queries (a pigeonhole fact that holds in every possible
iteration order). -/
theorem C7_bounded_distinct (text : List Char) (nounChunks : List String)
    (entities : EntityMap) (acts_sections : List ActSection)
    (citations : List Citation) :
    (LegalBriefAnalyzer.generate_search_queries text nounChunks entities
        acts_sections citations).length ≤ 10 ∧
    (LegalBriefAnalyzer.generate_search_queries text nounChunks entities
        acts_sections citations).Nodup ∧
    (10 < (pyDedup (acts_sections.map
        (fun i => i.act ++ " section " ++ i.sec))).length →
      ∃ a ∈ acts_sections, (a.act ++ " section " ++ a.sec) ∉
        LegalBriefAnalyzer.generate_search_queries text nounChunks entities
          acts_sections citations) := by
  refine ⟨?_, ?_, ?_⟩
  · simp only [LegalBriefAnalyzer.generate_search_queries]
    exact List.length_take_le _ _
  · simp only [LegalBriefAnalyzer.generate_search_queries]
    exact (pyDedup_nodup _).sublist (List.take_sublist _ _)
  · intro hlen
    by_contra hall
    push_neg at hall
    have hsub : pyDedup (acts_sections.map
        (fun i => i.act ++ " section " ++ i.sec)) ⊆
        LegalBriefAnalyzer.generate_search_queries text nounChunks entities
          acts_sections citations := by
      intro s hs
      have hs' := pyDedup_subset _ s hs
      rcases List.mem_map.mp hs' with ⟨a, ha, rfl⟩
      exact hall a ha
    have hle := (List.subperm_of_subset (pyDedup_nodup _) hsub).length_le
    have hcap : (LegalBriefAnalyzer.generate_search_queries text nounChunks
        entities acts_sections citations).length ≤ 10 := by
      simp only [LegalBriefAnalyzer.generate_search_queries]
      exact List.length_take_le _ _
    omega

/-- Witness for C7, discharging the pigeonhole hypothesis at eleven distinct
act/section pairs. -/
theorem C7_witness :
    10 < (pyDedup (exActsEleven.map
        (fun i => i.act ++ " section " ++ i.sec))).length ∧
    ∃ a ∈ exActsEleven, (a.act ++ " section " ++ a.sec) ∉
      LegalBriefAnalyzer.generate_search_queries [] exNounChunks
        exEmptyEntityMap exActsEleven [] :=
  ⟨by decide,
   (C7_bounded_distinct [] exNounChunks exEmptyEntityMap exActsEleven
     []).2.2 (by decide)⟩

/-- Claim C8, on the spec-modelled normalizer: the normalization — whitespace
collapse and trim, quote canonicalization, apostrophe canonicalization — is
idempotent.  (In the repository itself the apostrophe line of
`_preprocess_text` is a Python syntax error, so the function as written can
never run; the definition proved about here models the line's evident
intent as the spec records it.) -/

theorem C8_normalize_idempotent (l : List Char) :
    preprocess_text (preprocess_text l) = preprocess_text l := by
  rw [preprocess_text_eq, preprocess_text_eq]
  have hcol : CollapsedP (collapseWs l) := (collapseAux_collapsed l false).1
  have hcolt : CollapsedP (pyStrip (collapseWs l)) := collapsedP_pyStrip _ hcol
  have hhead : HeadNotWs (pyStrip (collapseWs l)) := by
    unfold pyStrip
    exact headNotWs_dropTrailingWs _ (dropWhile_headNotWs _)
  have hlast : HeadNotWs (pyStrip (collapseWs l)).reverse := pyStrip_last_not_ws _
  rw [show collapseWs ((pyStrip (collapseWs l)).map normAposChar) =
      (collapseAux false (pyStrip (collapseWs l))).map normAposChar from
    collapseAux_map _ false]
  rw [(collapseAux_of_collapsed _ hcolt).1]
  rw [pyStrip_map_normApos, pyStrip_fix _ hhead hlast, List.map_map]
  congr 1
  exact funext (fun c => normAposChar_idem c)

/-- Claim C9: every record the aggregator returns beat only strictly
lower-relevance records among the earlier collected records with its key —
so on a relevance tie the record from the earlier-queried connector is the
one kept. -/

theorem C9_first_wins (crsL : List (Except String (List LawSection)))
    (crsC : List (Except String (List CaseHistory))) :
    (∀ r ∈ LegalDataAggregator.search_law_sections crsL,
      ∃ l1 l2, collectOks crsL = l1 ++ r :: l2 ∧
        ∀ y ∈ l1, lawKey y = lawKey r → y.relevance < r.relevance) ∧
    (∀ r ∈ LegalDataAggregator.search_case_history crsC,
      ∃ l1 l2, collectOks crsC = l1 ++ r :: l2 ∧
        ∀ y ∈ l1, caseKey y = caseKey r → y.relevance < r.relevance) := by
  constructor
  · intro r hr
    have hperm := sortByRelevanceDesc_perm (fun r : LawSection => r.relevance)
      (dedupByKey lawKey (fun r => r.relevance) (collectOks crsL))
    exact dedupByKey_first_wins lawKey (fun r => r.relevance) (collectOks crsL) r
      (hperm.mem_iff.mp hr)
  · intro r hr
    have hperm := sortByRelevanceDesc_perm (fun r : CaseHistory => r.relevance)
      (dedupByKey caseKey (fun r => r.relevance) (collectOks crsC))
    exact dedupByKey_first_wins caseKey (fun r => r.relevance) (collectOks crsC) r
      (hperm.mem_iff.mp hr)

/-- Witness for C9 at a concrete relevance tie: the first connector's
record is the one kept for both searches. -/

theorem C9_witness :
    (∃ l1 l2, collectOks exCrsLTie = l1 ++ exLawTieA :: l2 ∧
      ∀ y ∈ l1, lawKey y = lawKey exLawTieA → y.relevance < exLawTieA.relevance) ∧
    (∃ l1 l2, collectOks exCrsCTie = l1 ++ exCaseTieA :: l2 ∧
      ∀ y ∈ l1, caseKey y = caseKey exCaseTieA → y.relevance < exCaseTieA.relevance) :=
  ⟨(C9_first_wins exCrsLTie exCrsCTie).1 exLawTieA (by decide),
   (C9_first_wins exCrsLTie exCrsCTie).2 exCaseTieA (by decide)⟩

/-- Claim C10: every section builder of `CaseFileDraftingAgent` first consults the
user-provided case info under its own key and, because the lookup is by Python
truthiness, treats an explicitly supplied empty-string override exactly like an
absent key; and whenever the builder falls through to generated content it
returns a non-empty string (for the fallible verification builder, non-empty
whenever it returns successfully). -/
theorem C10_override_truthiness (sentTok : String → List String) (today dt : String)
    (ba : BriefAnalysis) (ls : List LawSection) (ch : List CaseHistory)
    (analysis : AnalysisOutput) (ent : AgentEntities) (info : Info) :
    (CaseFileDraftingAgent.generate_title dt ba ent (infoSet info "title" "") =
        CaseFileDraftingAgent.generate_title dt ba ent (infoDel info "title") ∧
      CaseFileDraftingAgent.generate_title dt ba ent info ≠ "") ∧
    (CaseFileDraftingAgent.generate_parties_section dt ent (infoSet info "parties" "") =
        CaseFileDraftingAgent.generate_parties_section dt ent (infoDel info "parties") ∧
      CaseFileDraftingAgent.generate_parties_section dt ent info ≠ "") ∧
    (CaseFileDraftingAgent.generate_jurisdiction_section ba ent (infoSet info "jurisdiction" "") =
        CaseFileDraftingAgent.generate_jurisdiction_section ba ent (infoDel info "jurisdiction") ∧
      CaseFileDraftingAgent.generate_jurisdiction_section ba ent info ≠ "") ∧
    (CaseFileDraftingAgent.generate_facts_section sentTok dt ba ent (infoSet info "facts" "") =
        CaseFileDraftingAgent.generate_facts_section sentTok dt ba ent (infoDel info "facts") ∧
      CaseFileDraftingAgent.generate_facts_section sentTok dt ba ent info ≠ "") ∧
    (CaseFileDraftingAgent.generate_legal_provisions_section ls (infoSet info "legal_provisions" "") =
        CaseFileDraftingAgent.generate_legal_provisions_section ls (infoDel info "legal_provisions") ∧
      CaseFileDraftingAgent.generate_legal_provisions_section ls info ≠ "") ∧
    (CaseFileDraftingAgent.generate_grounds_section analysis ls ch (infoSet info "grounds" "") =
        CaseFileDraftingAgent.generate_grounds_section analysis ls ch (infoDel info "grounds") ∧
      CaseFileDraftingAgent.generate_grounds_section analysis ls ch info ≠ "") ∧
    (CaseFileDraftingAgent.generate_prayer_section dt analysis ba (infoSet info "prayer" "") =
        CaseFileDraftingAgent.generate_prayer_section dt analysis ba (infoDel info "prayer") ∧
      CaseFileDraftingAgent.generate_prayer_section dt analysis ba info ≠ "") ∧
    (CaseFileDraftingAgent.generate_preliminary_objections analysis (infoSet info "preliminary_objections" "") =
        CaseFileDraftingAgent.generate_preliminary_objections analysis (infoDel info "preliminary_objections") ∧
      CaseFileDraftingAgent.generate_preliminary_objections analysis info ≠ "") ∧
    (CaseFileDraftingAgent.generate_facts_rebuttal ba (infoSet info "facts_rebuttal" "") =
        CaseFileDraftingAgent.generate_facts_rebuttal ba (infoDel info "facts_rebuttal") ∧
      CaseFileDraftingAgent.generate_facts_rebuttal ba info ≠ "") ∧
    (CaseFileDraftingAgent.generate_legal_arguments analysis ls ch (infoSet info "legal_arguments" "") =
        CaseFileDraftingAgent.generate_legal_arguments analysis ls ch (infoDel info "legal_arguments") ∧
      CaseFileDraftingAgent.generate_legal_arguments analysis ls ch info ≠ "") ∧
    (CaseFileDraftingAgent.generate_rebuttal_to_reply analysis (infoSet info "rebuttal_to_reply" "") =
        CaseFileDraftingAgent.generate_rebuttal_to_reply analysis (infoDel info "rebuttal_to_reply") ∧
      CaseFileDraftingAgent.generate_rebuttal_to_reply analysis info ≠ "") ∧
    (CaseFileDraftingAgent.generate_additional_facts ba (infoSet info "additional_facts" "") =
        CaseFileDraftingAgent.generate_additional_facts ba (infoDel info "additional_facts") ∧
      CaseFileDraftingAgent.generate_additional_facts ba info ≠ "") ∧
    (CaseFileDraftingAgent.generate_deponent_details ent (infoSet info "deponent_details" "") =
        CaseFileDraftingAgent.generate_deponent_details ent (infoDel info "deponent_details") ∧
      CaseFileDraftingAgent.generate_deponent_details ent info ≠ "") ∧
    (CaseFileDraftingAgent.generate_affidavit_statements sentTok ba (infoSet info "statements" "") =
        CaseFileDraftingAgent.generate_affidavit_statements sentTok ba (infoDel info "statements") ∧
      CaseFileDraftingAgent.generate_affidavit_statements sentTok ba info ≠ "") ∧
    (CaseFileDraftingAgent.generate_affidavit_declaration (infoSet info "declaration" "") =
        CaseFileDraftingAgent.generate_affidavit_declaration (infoDel info "declaration") ∧
      CaseFileDraftingAgent.generate_affidavit_declaration info ≠ "") ∧
    (CaseFileDraftingAgent.generate_attestation today (infoSet info "attestation" "") =
        CaseFileDraftingAgent.generate_attestation today (infoDel info "attestation") ∧
      CaseFileDraftingAgent.generate_attestation today info ≠ "") ∧
    (CaseFileDraftingAgent.generate_sender_details ent (infoSet info "sender_details" "") =
        CaseFileDraftingAgent.generate_sender_details ent (infoDel info "sender_details") ∧
      CaseFileDraftingAgent.generate_sender_details ent info ≠ "") ∧
    (CaseFileDraftingAgent.generate_recipient_details ent (infoSet info "recipient_details" "") =
        CaseFileDraftingAgent.generate_recipient_details ent (infoDel info "recipient_details") ∧
      CaseFileDraftingAgent.generate_recipient_details ent info ≠ "") ∧
    (CaseFileDraftingAgent.generate_notice_subject ba (infoSet info "subject" "") =
        CaseFileDraftingAgent.generate_notice_subject ba (infoDel info "subject") ∧
      CaseFileDraftingAgent.generate_notice_subject ba info ≠ "") ∧
    (CaseFileDraftingAgent.generate_notice_demand analysis (infoSet info "demand" "") =
        CaseFileDraftingAgent.generate_notice_demand analysis (infoDel info "demand") ∧
      CaseFileDraftingAgent.generate_notice_demand analysis info ≠ "") ∧
    (CaseFileDraftingAgent.generate_notice_timeline (infoSet info "timeline" "") =
        CaseFileDraftingAgent.generate_notice_timeline (infoDel info "timeline") ∧
      CaseFileDraftingAgent.generate_notice_timeline info ≠ "") ∧
    (CaseFileDraftingAgent.generate_notice_consequences ls (infoSet info "consequences" "") =
        CaseFileDraftingAgent.generate_notice_consequences ls (infoDel info "consequences") ∧
      CaseFileDraftingAgent.generate_notice_consequences ls info ≠ "") ∧
    (CaseFileDraftingAgent.generate_verification_section today dt ent (infoSet info "verification" "") =
        CaseFileDraftingAgent.generate_verification_section today dt ent (infoDel info "verification") ∧
      ∀ s, CaseFileDraftingAgent.generate_verification_section today dt ent info =
        Except.ok s → s ≠ "") :=
  ⟨⟨ovr_title dt ba ent info, ne_title dt ba ent info⟩,
   ⟨ovr_parties dt ent info, ne_parties dt ent info⟩,
   ⟨ovr_jurisdiction ba ent info, ne_jurisdiction ba ent info⟩,
   ⟨ovr_facts sentTok dt ba ent info, ne_facts sentTok dt ba ent info⟩,
   ⟨ovr_legal_provisions ls info, ne_legal_provisions ls info⟩,
   ⟨ovr_grounds ls ch analysis info, ne_grounds ls ch analysis info⟩,
   ⟨ovr_prayer dt ba analysis info, ne_prayer dt ba analysis info⟩,
   ⟨ovr_preliminary_objections analysis info, ne_preliminary_objections analysis info⟩,
   ⟨ovr_facts_rebuttal ba info, ne_facts_rebuttal ba info⟩,
   ⟨ovr_legal_arguments ls ch analysis info, ne_legal_arguments ls ch analysis info⟩,
   ⟨ovr_rebuttal_to_reply analysis info, ne_rebuttal_to_reply analysis info⟩,
   ⟨ovr_additional_facts ba info, ne_additional_facts ba info⟩,
   ⟨ovr_deponent_details ent info, ne_deponent_details ent info⟩,
   ⟨ovr_statements sentTok ba info, ne_statements sentTok ba info⟩,
   ⟨ovr_declaration info, ne_declaration info⟩,
   ⟨ovr_attestation today info, ne_attestation today info⟩,
   ⟨ovr_sender_details ent info, ne_sender_details ent info⟩,
   ⟨ovr_recipient_details ent info, ne_recipient_details ent info⟩,
   ⟨ovr_subject ba info, ne_subject ba info⟩,
   ⟨ovr_demand analysis info, ne_demand analysis info⟩,
   ⟨ovr_timeline info, ne_timeline info⟩,
   ⟨ovr_consequences ls info, ne_consequences ls info⟩,
   ⟨ovr_verification today dt ent info,
    fun s h => ne_verification today dt ent info s h⟩⟩

/-- Witness for C10 at concrete inputs: the empty-string override on the title
key coincides with deleting it, and the verification builder succeeds on an
affidavit with a concrete non-empty result. -/
theorem C10_witness :
    CaseFileDraftingAgent.generate_title "affidavit" exBAEmpty exEntitiesEmpty
        (infoSet emptyInfo "title" "") =
      CaseFileDraftingAgent.generate_title "affidavit" exBAEmpty exEntitiesEmpty
        (infoDel emptyInfo "title") ∧
    ("Verified at [PLACE] on this 05/10/2026 that the contents of the above document are true and correct to the best of my knowledge and belief and nothing material has been concealed therefrom.\n\n[NAME]\n[DESIGNATION]" : String) ≠ "" := by
  obtain ⟨h1, h2, h3, h4, h5, h6, h7, h8, h9, h10, h11, h12, h13, h14, h15, h16,
    h17, h18, h19, h20, h21, h22, h23⟩ :=
    C10_override_truthiness exSentTok "05/10/2026" "affidavit" exBAEmpty [] []
      exAnalysisEmpty exEntitiesEmpty emptyInfo
  exact ⟨h1.1, h23.2 _ rfl⟩

end LexAssist
